import Mathlib

/-!
Verification of the emulator core of this repository (an M68000 + VDP based
console emulator) against its natural-language specification.

The definitions below are shallow embeddings of the C++ sources:
machine integers become `Nat` with explicit `% 2^w` wrapping, byte buffers
become `List Nat`, the flat byte-addressed memory seen through the bus becomes
a function `Nat → Nat`, and fallible operations return `Except`/`Option`
errors.  Each definition names the C++ entity it embeds.
-/

namespace Sega

/-! ## Machine integer helpers -/

/-- Wrap to a 32-bit unsigned value (C++ `Long` = `uint32_t`). -/
def long (n : Nat) : Nat := n % 4294967296

/-- Wrap to a 16-bit unsigned value (C++ `Word` = `uint16_t`). -/
def word16 (n : Nat) : Nat := n % 65536

/-- Wrap to an 8-bit unsigned value (C++ `Byte` = `uint8_t`). -/
def byte8 (n : Nat) : Nat := n % 256

/-- Reading of a `uint32_t` value as a C++ `int32_t` (two's complement). -/
def toSigned32 (v : Nat) : Int :=
  if v % 4294967296 < 2147483648 then (v % 4294967296 : Int)
  else (v % 4294967296 : Int) - 4294967296

/-- Reading of a `uint16_t` value as a C++ `int16_t` (two's complement). -/
def toSigned16 (v : Nat) : Int :=
  if v % 65536 < 32768 then (v % 65536 : Int) else (v % 65536 : Int) - 65536

/-- Reading of a `uint8_t` value as a C++ `int8_t` (two's complement). -/
def toSigned8 (v : Nat) : Int :=
  if v % 256 < 128 then (v % 256 : Int) else (v % 256 : Int) - 256

/-- Wrap of an integer back into a `uint32_t` (two's complement encoding). -/
def toUnsigned32 (i : Int) : Nat := (i % 4294967296).toNat

/-- C++ `static_cast<SignedWord>` of a 16-bit word sign-extended and then
stored into a `Long`: `long (areg + signExtWordToLong w)` models
`a + static_cast<SignedWord>(w)` on `uint32_t`. -/
def signExtWordToLong (v : Nat) : Nat :=
  if v % 65536 < 32768 then v % 65536 else v % 65536 + 4294901760

/-- Sign extension of a byte into a 32-bit summand, as for `SignedByte` casts. -/
def signExtByteToLong (v : Nat) : Nat :=
  if v % 256 < 128 then v % 256 else v % 256 + 4294967040

/-! ## Byte buffers and big-endian packing

`Device::write<T>` byte-swaps a host-native integer and stores its bytes with
the most significant byte at the lowest address; `Device::read<T>` reads the
bytes back and byte-swaps.  `beBytes w v` is the big-endian byte list of the
low `w` bytes of `v` (most significant first) and `beVal` reassembles it. -/

/-- Big-endian byte list (most significant byte first) of the low `w` bytes
of `v`; this is the buffer produced by `Device::write<T>` after `byteswap`. -/
def beBytes : Nat → Nat → List Nat
  | 0, _ => []
  | w + 1, v => v / 2 ^ (8 * w) % 256 :: beBytes w v

/-- Host-native value of a big-endian byte list, as assembled by
`Device::read<T>` after `byteswap` (and by `Target::read_as_long_long`). -/
def beVal : List Nat → Nat
  | [] => 0
  | b :: rest => b % 256 * 2 ^ (8 * rest.length) + beVal rest

/-! ## Flat byte memory (the view of RAM through the bus) -/

/-- Byte-addressed memory: the claims about pushes and vector fetches see the
bus as a flat byte store. -/
def Mem : Type := Nat → Nat

/-- Store one byte. -/
def memWrite (m : Mem) (addr v : Nat) : Mem :=
  fun x => if x = addr then v % 256 else m x

/-- Store a byte list at consecutive addresses starting at `base`. -/
def writeBytes (m : Mem) (base : Nat) : List Nat → Mem
  | [] => m
  | b :: rest => writeBytes (memWrite m base b) (base + 1) rest

/-- Load `len` bytes starting at `base`. -/
def readBytes (m : Mem) (base : Nat) : Nat → List Nat
  | 0 => []
  | len + 1 => m base % 256 :: readBytes m (base + 1) len

/-- Big-endian store of the low `w` bytes of `v` at `addr`
(`Device::write<T>` going to a flat RAM). -/
def writeBE (m : Mem) (addr w v : Nat) : Mem := writeBytes m addr (beBytes w v)

/-- Big-endian load of `w` bytes at `addr` (`Device::read<T>`). -/
def readBE (m : Mem) (addr w : Nat) : Nat := beVal (readBytes m addr w)

/-! ### Lemmas about the byte model -/

theorem beBytes_length (w v : Nat) : (beBytes w v).length = w := by
  induction w generalizing v with
  | zero => rfl
  | succ w ih => simp [beBytes, ih]

theorem writeBytes_out_lt (m : Mem) (base : Nat) (l : List Nat) (x : Nat)
    (hx : x < base) : writeBytes m base l x = m x := by
  induction l generalizing m base with
  | nil => rfl
  | cons b rest ih =>
    rw [writeBytes, ih _ _ (Nat.lt_succ_of_lt hx), memWrite]
    simp [Nat.ne_of_lt hx]

theorem writeBytes_out_ge (m : Mem) (base : Nat) (l : List Nat) (x : Nat)
    (hx : base + l.length ≤ x) : writeBytes m base l x = m x := by
  induction l generalizing m base with
  | nil => rfl
  | cons b rest ih =>
    rw [writeBytes, ih, memWrite]
    · have : x ≠ base := by simp at hx; omega
      simp [this]
    · simp at hx ⊢; omega

theorem writeBytes_get (m : Mem) (base : Nat) (l : List Nat) (i : Nat)
    (hi : i < l.length) : writeBytes m base l (base + i) = l.getD i 0 % 256 := by
  induction l generalizing m base i with
  | nil => simp at hi
  | cons b rest ih =>
    match i with
    | 0 =>
      rw [writeBytes, writeBytes_out_lt _ _ _ _ (by omega)]
      simp [memWrite]
    | i + 1 =>
      rw [writeBytes]
      have := ih (memWrite m base b) (base + 1) i (by simpa using hi)
      simpa [Nat.add_assoc, Nat.add_comm 1 i] using this

theorem readBytes_congr (m1 m2 : Mem) (base len : Nat)
    (h : ∀ i, i < len → m1 (base + i) = m2 (base + i)) :
    readBytes m1 base len = readBytes m2 base len := by
  induction len generalizing base with
  | zero => rfl
  | succ len ih =>
    rw [readBytes, readBytes]
    have h0 := h 0 (by omega)
    simp at h0
    rw [h0, ih (base + 1) (fun i hi => by
      have := h (i + 1) (by omega)
      simpa [Nat.add_assoc, Nat.add_comm 1 i] using this)]

theorem readBytes_writeBytes (m : Mem) (base : Nat) (l : List Nat) :
    readBytes (writeBytes m base l) base l.length = l.map (fun b => b % 256) := by
  induction l generalizing m base with
  | nil => rfl
  | cons b rest ih =>
    rw [List.length_cons, readBytes, writeBytes]
    have hb : writeBytes (memWrite m base b) (base + 1) rest base = b % 256 := by
      rw [writeBytes_out_lt _ _ _ _ (by omega), memWrite]; simp
    rw [hb, ih, List.map_cons]
    have hmm : b % 256 % 256 = b % 256 := by omega
    rw [hmm]

theorem beVal_map_mod (l : List Nat) : beVal (l.map (fun b => b % 256)) = beVal l := by
  induction l with
  | nil => rfl
  | cons b rest ih =>
    have hmm : b % 256 % 256 = b % 256 := by omega
    simp only [List.map_cons, beVal, ih, List.length_map, hmm]

theorem beVal_beBytes (w v : Nat) : beVal (beBytes w v) = v % 2 ^ (8 * w) := by
  induction w generalizing v with
  | zero => simp [beBytes, beVal, Nat.mod_one]
  | succ w ih =>
    rw [beBytes, beVal, beBytes_length, ih]
    have hmm : v / 2 ^ (8 * w) % 256 % 256 = v / 2 ^ (8 * w) % 256 := by omega
    rw [hmm, Nat.mul_comm]
    have hsplit : 2 ^ (8 * (w + 1)) = 2 ^ (8 * w) * 256 := by
      rw [show 8 * (w + 1) = 8 * w + 8 by ring, pow_add]
      norm_num
    have h1 : v % 2 ^ (8 * (w + 1)) / 2 ^ (8 * w) = v / 2 ^ (8 * w) % 256 := by
      rw [hsplit, Nat.mod_mul_right_div_self]
    have h2 : v % 2 ^ (8 * (w + 1)) % 2 ^ (8 * w) = v % 2 ^ (8 * w) := by
      rw [hsplit, Nat.mod_mul_right_mod]
    have h3 := Nat.div_add_mod (v % 2 ^ (8 * (w + 1))) (2 ^ (8 * w))
    rw [h1, h2] at h3
    exact h3

theorem readBE_writeBE (m : Mem) (addr w v : Nat) :
    readBE (writeBE m addr w v) addr w = v % 2 ^ (8 * w) := by
  rw [readBE, writeBE]
  have h := readBytes_writeBytes m addr (beBytes w v)
  rw [beBytes_length] at h
  rw [h, beVal_map_mod, beVal_beBytes]

theorem readBE_writeBE_above (m : Mem) (addr w v addr2 w2 : Nat)
    (h : addr + w ≤ addr2) :
    readBE (writeBE m addr w v) addr2 w2 = readBE m addr2 w2 := by
  rw [readBE, readBE, readBytes_congr (writeBE m addr w v) m addr2 w2]
  intro i _
  rw [writeBE, writeBytes_out_ge]
  rw [beBytes_length]; omega

theorem readBE_writeBE_below (m : Mem) (addr w v addr2 w2 : Nat)
    (h : addr2 + w2 ≤ addr) :
    readBE (writeBE m addr w v) addr2 w2 = readBE m addr2 w2 := by
  rw [readBE, readBE, readBytes_congr (writeBE m addr w v) m addr2 w2]
  intro i hi
  rw [writeBE, writeBytes_out_lt]
  omega

/-! ## Status register and register file

Embeds `struct Registers` from `lib/m68k/registers/registers.h`: 8 data
registers, 7 address registers, USP, SSP, PC and the 16-bit SR bit-field. -/

/-- The SR bit-field of `Registers` (LSB to MSB: C, V, Z, N, X, 3 unused
bits, 3-bit interrupt mask, 1 unused bit, M, S, 2 trace bits). -/
structure StatusRegister where
  carry : Bool
  overflow : Bool
  zero : Bool
  negative : Bool
  extend : Bool
  interrupt_mask : Nat
  master_switch : Bool
  supervisor : Bool
  trace : Nat
deriving DecidableEq

/-- Packing of the SR bit-field into a 16-bit word, as done by
`operator Word()` (a `reinterpret_cast` of the bit-field layout). -/
def StatusRegister.toWord (sr : StatusRegister) : Nat :=
  sr.carry.toNat + 2 * sr.overflow.toNat + 4 * sr.zero.toNat +
  8 * sr.negative.toNat + 16 * sr.extend.toNat +
  256 * (sr.interrupt_mask % 8) + 4096 * sr.master_switch.toNat +
  8192 * sr.supervisor.toNat + 16384 * (sr.trace % 4)

theorem StatusRegister.toWord_lt (sr : StatusRegister) : sr.toWord < 65536 := by
  have h1 : sr.carry.toNat ≤ 1 := by cases sr.carry <;> decide
  have h2 : sr.overflow.toNat ≤ 1 := by cases sr.overflow <;> decide
  have h3 : sr.zero.toNat ≤ 1 := by cases sr.zero <;> decide
  have h4 : sr.negative.toNat ≤ 1 := by cases sr.negative <;> decide
  have h5 : sr.extend.toNat ≤ 1 := by cases sr.extend <;> decide
  have h6 : sr.interrupt_mask % 8 < 8 := Nat.mod_lt _ (by norm_num)
  have h7 : sr.master_switch.toNat ≤ 1 := by cases sr.master_switch <;> decide
  have h8 : sr.supervisor.toNat ≤ 1 := by cases sr.supervisor <;> decide
  have h9 : sr.trace % 4 < 4 := Nat.mod_lt _ (by norm_num)
  unfold StatusRegister.toWord
  omega

/-- The register file (`struct Registers`). -/
structure Registers where
  d : List Nat
  a : List Nat
  usp : Nat
  ssp : Nat
  pc : Nat
  sr : StatusRegister
deriving DecidableEq

/-- `Registers::stack_ptr()`: the active stack pointer is SSP when the
supervisor flag is set, USP otherwise. -/
def Registers.stack_ptr (r : Registers) : Nat :=
  if r.sr.supervisor then r.ssp else r.usp

/-- Writing through the reference returned by `Registers::stack_ptr()`. -/
def Registers.set_stack_ptr (r : Registers) (v : Nat) : Registers :=
  if r.sr.supervisor then { r with ssp := v } else { r with usp := v }

/-- Value of data register `Dn`. -/
def Registers.dReg (r : Registers) (i : Nat) : Nat := r.d.getD i 0

/-- Write of data register `Dn`. -/
def Registers.setDReg (r : Registers) (i v : Nat) : Registers :=
  { r with d := r.d.set i v }

/-- Helper `a_reg` from `targets.cpp`: address registers `A0..A6` live in the
array, `A7` is the active stack pointer. -/
def Registers.aReg (r : Registers) (i : Nat) : Nat :=
  if i < 7 then r.a.getD i 0 else r.stack_ptr

/-- Write through the reference returned by `a_reg`. -/
def Registers.setAReg (r : Registers) (i v : Nat) : Registers :=
  if i < 7 then { r with a := r.a.set i v } else r.set_stack_ptr v

/-! ## Claim C1: the vblank interrupt entry

Embeds `InterruptHandler::call_vblank` from
`src/lib/sega/executor/interrupt_handler.cpp`.  The C++ binds
`auto& sp = registers_.stack_ptr();` once at entry (before the supervisor flag
is changed), decrements it by 4 and writes PC, decrements by 2 and writes SR,
then sets S=1, the interrupt mask to 6 and jumps to the vblank vector. -/

/-- Shallow embedding of `InterruptHandler::call_vblank`.  The bus is modelled
as a flat byte memory; `Device::write<T>` stores big-endian. -/
def call_vblank (vblank_pc : Nat) (r : Registers) (m : Mem) : Registers × Mem :=
  let sp1 := long (r.stack_ptr + 4294967296 - 4)
  let m1 := writeBE m sp1 4 r.pc
  let sp2 := long (sp1 + 4294967296 - 2)
  let m2 := writeBE m1 sp2 2 r.sr.toWord
  let r1 := r.set_stack_ptr sp2
  let r2 := { r1 with
    pc := vblank_pc,
    sr := { r1.sr with supervisor := true, interrupt_mask := 6 } }
  (r2, m2)

/-- Concrete user-mode machine state used to test the C1 claim. -/
def c1Regs : Registers :=
  { d := [0, 0, 0, 0, 0, 0, 0, 0], a := [0, 0, 0, 0, 0, 0, 0],
    usp := 0x2000, ssp := 0x3000, pc := 0x100,
    sr := { carry := false, overflow := false, zero := false, negative := false,
            extend := false, interrupt_mask := 0, master_switch := false,
            supervisor := false, trace := 0 } }

/-- C1 counterexample: starting in user mode (S=0) with USP=0x2000 and
SSP=0x3000, `call_vblank` does NOT leave USP unchanged and does NOT set
SSP to its prior value minus 6 — the interrupt frame is pushed through the
user stack pointer because `stack_ptr()` is bound before S is set. -/
theorem C1_counterexample :
    ¬ ((call_vblank 0x500 c1Regs (fun _ => 0)).1.usp = 0x2000 ∧
       (call_vblank 0x500 c1Regs (fun _ => 0)).1.ssp = 0x3000 - 6) := by
  decide

/-- C1 (amended): when the vblank fires with S=0, the frame is pushed through
the pre-interrupt active stack pointer, which is USP: afterwards USP equals
its prior value minus 6, SSP is unchanged, the memory at the final USP holds
the pre-interrupt SR (2 bytes) at the low address and the pre-interrupt PC
(4 bytes) at USP−4+... above it, PC equals the vblank vector, SR.S=1 and the
interrupt mask equals 6; data and address registers are untouched. -/
theorem C1_call_vblank_user_mode (vec : Nat) (r : Registers) (m : Mem)
    (hs : r.sr.supervisor = false)
    (husp1 : 6 ≤ r.usp) (husp2 : r.usp < 4294967296)
    (hpc : r.pc < 4294967296) :
    ((call_vblank vec r m).1.usp = r.usp - 6) ∧
    ((call_vblank vec r m).1.ssp = r.ssp) ∧
    ((call_vblank vec r m).1.pc = vec) ∧
    ((call_vblank vec r m).1.sr.supervisor = true) ∧
    ((call_vblank vec r m).1.sr.interrupt_mask = 6) ∧
    ((call_vblank vec r m).1.d = r.d) ∧
    ((call_vblank vec r m).1.a = r.a) ∧
    (readBE (call_vblank vec r m).2 (r.usp - 6) 2 = r.sr.toWord) ∧
    (readBE (call_vblank vec r m).2 (r.usp - 4) 4 = r.pc) := by
  have hsp : r.stack_ptr = r.usp := by simp [Registers.stack_ptr, hs]
  have h1 : long (r.usp + 4294967296 - 4) = r.usp - 4 := by unfold long; omega
  have h2 : long (r.usp - 4 + 4294967296 - 2) = r.usp - 6 := by unfold long; omega
  have hsrlt := r.sr.toWord_lt
  have h16 : (2 : Nat) ^ (8 * 2) = 65536 := by norm_num
  have h32 : (2 : Nat) ^ (8 * 4) = 4294967296 := by norm_num
  unfold call_vblank
  simp only [hsp, h1, h2]
  refine ⟨?_, ?_, ?_, ?_, ?_, ?_, ?_, ?_, ?_⟩
  · simp [Registers.set_stack_ptr, hs]
  · simp [Registers.set_stack_ptr, hs]
  · simp [Registers.set_stack_ptr, hs]
  · simp [Registers.set_stack_ptr, hs]
  · simp [Registers.set_stack_ptr, hs]
  · simp [Registers.set_stack_ptr, hs]
  · simp [Registers.set_stack_ptr, hs]
  · rw [readBE_writeBE, h16]
    omega
  · rw [readBE_writeBE_above _ _ _ _ _ _ (by omega), readBE_writeBE, h32]
    omega

/-- C1 witness: the amended vblank theorem applied at a concrete user-mode
state. -/
theorem C1_call_vblank_user_mode_witness :
    ((call_vblank 0x500 c1Regs (fun _ => 0)).1.usp = 0x2000 - 6) ∧
    ((call_vblank 0x500 c1Regs (fun _ => 0)).1.ssp = 0x3000) ∧
    ((call_vblank 0x500 c1Regs (fun _ => 0)).1.pc = 0x500) ∧
    ((call_vblank 0x500 c1Regs (fun _ => 0)).1.sr.supervisor = true) ∧
    ((call_vblank 0x500 c1Regs (fun _ => 0)).1.sr.interrupt_mask = 6) ∧
    ((call_vblank 0x500 c1Regs (fun _ => 0)).1.d = c1Regs.d) ∧
    ((call_vblank 0x500 c1Regs (fun _ => 0)).1.a = c1Regs.a) ∧
    (readBE (call_vblank 0x500 c1Regs (fun _ => 0)).2 (0x2000 - 6) 2 = c1Regs.sr.toWord) ∧
    (readBE (call_vblank 0x500 c1Regs (fun _ => 0)).2 (0x2000 - 4) 4 = 0x100) :=
  C1_call_vblank_user_mode 0x500 c1Regs (fun _ => 0) (by decide) (by decide)
    (by decide) (by decide)

/-! ## Error kinds

Embeds the `Error::Kind` enumeration (messages are dropped: they are only
`fmt::format` diagnostics).  `unreachableHit` stands for the
`std::unreachable()` / `std::abort()` paths of the source, which are undefined
behavior in C++; the embedding makes them an explicit error value. -/

/-- The closed error enumeration of the emulator. -/
inductive EKind where
  | unalignedMemoryRead
  | unalignedMemoryWrite
  | unalignedProgramCounter
  | unknownAddressingMode
  | unknownOpcode
  | protectedRead
  | protectedWrite
  | unmappedRead
  | unmappedWrite
  | invalidRead
  | invalidWrite
  | unreachableHit
deriving DecidableEq

/-! ## Claim C4: big-endian round trip on the main RAM device

Embeds `M68kRamDevice` (`m68k_ram_device.cpp`): `read` copies
`data_[addr - kBegin + i]` into the buffer, `write` symmetrically; the typed
helpers `Device::read<T>` / `Device::write<T>` (`device.h`) byte-swap so that
the most significant byte sits at the lowest address. -/

/-- Start of the main-RAM window (`M68kRamDevice::kBegin`). -/
def M68kRamDevice.kBegin : Nat := 0xC00020

/-- End of the main-RAM window (`M68kRamDevice::kEnd`, inclusive). -/
def M68kRamDevice.kEnd : Nat := 0xFFFFFF

/-- `M68kRamDevice::write`: `data_[addr - kBegin + i] = data[i]`. -/
def m68kRam_write (ram : Mem) (addr : Nat) (data : List Nat) : Mem :=
  writeBytes ram (addr - M68kRamDevice.kBegin) data

/-- `M68kRamDevice::read`: `data[i] = data_[addr - kBegin + i]`. -/
def m68kRam_read (ram : Mem) (addr len : Nat) : List Nat :=
  readBytes ram (addr - M68kRamDevice.kBegin) len

/-- `Device::write<T>` on the main RAM: byte-swap `v` (producing the
big-endian byte list) and store it at `addr`. -/
def device_write_typed (ram : Mem) (addr w v : Nat) : Mem :=
  m68kRam_write ram addr (beBytes w v)

/-- `Device::read<T>` on the main RAM: load `w` bytes at `addr` and
byte-swap them back into a host-native integer. -/
def device_read_typed (ram : Mem) (addr w : Nat) : Nat :=
  beVal (m68kRam_read ram addr w)

theorem beBytes_getD (w v i : Nat) (hi : i < w) :
    (beBytes w v).getD i 0 = v / 2 ^ (8 * (w - 1 - i)) % 256 := by
  induction w generalizing v i with
  | zero => omega
  | succ w ih =>
    match i with
    | 0 => simp [beBytes]
    | i + 1 =>
      have h := ih v i (by omega)
      rw [beBytes, show w + 1 - 1 - (i + 1) = w - 1 - i by omega]
      simpa using h

/-- C4: for every width `w ∈ {1,2,4}` and value `v` of that width, writing
`v` through the typed big-endian helper to the RAM-backed peripheral at `A`
and reading it back yields `v`, and the byte stored at offset `i` is byte
`i` of the big-endian representation (most significant byte at the lowest
address). -/
theorem C4_big_endian_round_trip (ram : Mem) (A w v : Nat)
    (hw : w = 1 ∨ w = 2 ∨ w = 4) (hv : v < 2 ^ (8 * w))
    (hA : M68kRamDevice.kBegin ≤ A) (hA2 : A + w ≤ M68kRamDevice.kEnd + 1) :
    (device_read_typed (device_write_typed ram A w v) A w = v) ∧
    (∀ i, i < w →
      device_write_typed ram A w v (A - M68kRamDevice.kBegin + i) =
        v / 2 ^ (8 * (w - 1 - i)) % 256) := by
  constructor
  · unfold device_read_typed device_write_typed m68kRam_read m68kRam_write
    have hr : readBytes (writeBytes ram (A - M68kRamDevice.kBegin) (beBytes w v))
        (A - M68kRamDevice.kBegin) w =
        (beBytes w v).map (fun b => b % 256) := by
      have h := readBytes_writeBytes ram (A - M68kRamDevice.kBegin) (beBytes w v)
      rwa [beBytes_length] at h
    rw [hr, beVal_map_mod, beVal_beBytes]
    exact Nat.mod_eq_of_lt hv
  · intro i hi
    unfold device_write_typed m68kRam_write
    rw [writeBytes_get _ _ _ _ (by rw [beBytes_length]; omega),
      beBytes_getD _ _ _ hi]
    omega

/-- C4 witness: round trip of the 4-byte value 0xDEADBEEF at address
0xFF0000. -/
theorem C4_big_endian_round_trip_witness :
    (device_read_typed (device_write_typed (fun _ => 0) 0xFF0000 4 0xDEADBEEF)
        0xFF0000 4 = 0xDEADBEEF) ∧
    (∀ i, i < 4 →
      device_write_typed (fun _ => 0) 0xFF0000 4 0xDEADBEEF
          (0xFF0000 - M68kRamDevice.kBegin + i) =
        0xDEADBEEF / 2 ^ (8 * (4 - 1 - i)) % 256) :=
  C4_big_endian_round_trip (fun _ => 0) 0xFF0000 4 0xDEADBEEF
    (by decide) (by norm_num) (by decide) (by decide)

/-! ## Claim C8: the ROM device

Embeds `RomDevice::read` (`rom_device.cpp`): bytes are copied from the ROM
image only while `addr + i` is inside it — the loop stops at the image's end
and the remaining buffer bytes are left untouched.  Writes go through
`ReadOnlyDevice::write`, which logs and returns no error. -/

/-- `RomDevice::read`: `data[i] = rom_data_[addr + i]` while in range; the
loop condition `addr + i < rom_data_.size()` leaves the tail of the buffer
unmodified. -/
def rom_read (rom : List Nat) : Nat → List Nat → List Nat
  | _, [] => []
  | addr, b :: rest =>
    (if addr < rom.length then rom.getD addr 0 else b) :: rom_read rom (addr + 1) rest

/-- `ReadOnlyDevice::write`: logs the protected write and returns no error;
the ROM contents cannot change. -/
def read_only_device_write (rom : List Nat) (addr : Nat) (data : List Nat) :
    Option EKind × List Nat :=
  (none, rom)

/-- C8 counterexample: reading 2 bytes at address 0 from a 1-byte ROM image
`[0x12]` into a buffer holding `[0xEE, 0xEE]` returns `0xEE`, not `0`, for
the byte past the end of the image — the source leaves out-of-range buffer
bytes untouched instead of zeroing them. -/
theorem C8_counterexample :
    ¬ ((rom_read [0x12] 0 [0xEE, 0xEE]).getD 1 0 = 0) := by
  decide

/-- C8 (amended): a ROM read returns `rom[A+i]` for every byte inside the
image and leaves the buffer byte unchanged (rather than forcing it to 0)
past the image's end; every write to the ROM peripheral succeeds silently
and leaves the ROM unchanged. -/
theorem C8_rom_semantics (rom : List Nat) (addr : Nat) (buf : List Nat) :
    ((rom_read rom addr buf).length = buf.length) ∧
    (∀ i, i < buf.length →
      (rom_read rom addr buf).getD i 0 =
        if addr + i < rom.length then rom.getD (addr + i) 0 else buf.getD i 0) ∧
    (read_only_device_write rom addr buf = (none, rom)) := by
  refine ⟨?_, ?_, rfl⟩
  · induction buf generalizing addr with
    | nil => rfl
    | cons b rest ih => simp [rom_read, ih]
  · induction buf generalizing addr with
    | nil => intro i hi; simp at hi
    | cons b rest ih =>
      intro i hi
      match i with
      | 0 => simp [rom_read]
      | i + 1 =>
        rw [rom_read]
        have := ih (addr + 1) i (by simpa using hi)
        simpa [Nat.add_assoc, Nat.add_comm 1 i] using this

/-- C8 witness: the amended ROM semantics applied at the concrete
counterexample input. -/
theorem C8_rom_semantics_witness :
    ((rom_read [0x12] 0 [0xEE, 0xEE]).length = 2) ∧
    ((rom_read [0x12] 0 [0xEE, 0xEE]).getD 0 0 = 0x12) ∧
    ((rom_read [0x12] 0 [0xEE, 0xEE]).getD 1 0 = 0xEE) ∧
    (read_only_device_write [0x12] 0 [0xEE, 0xEE] = (none, [0x12])) := by
  have h := C8_rom_semantics [0x12] 0 [0xEE, 0xEE]
  refine ⟨h.1, ?_, ?_, h.2.2⟩
  · have := h.2.1 0 (by decide)
    simpa using this
  · have := h.2.1 1 (by decide)
    simpa using this

/-! ## Claim C5: bus dispatch

Embeds `BusDevice` (`bus_device.cpp`): a list of `(range, device)` records in
registration order; `read`/`write` first mask the address with
`kAddressMask = 0xFFFFFF`, then dispatch to the first record whose inclusive
range contains the masked address, and return `UnmappedRead`/`UnmappedWrite`
without touching any peripheral when no range matches. -/

/-- A peripheral as seen by the bus: opaque read/write behaviors. -/
structure Periph where
  readFn : Nat → Nat → Except EKind (List Nat)
  writeFn : Nat → List Nat → Option EKind

/-- An inclusive address range (`BusDevice::Range`, fields `begin`/`end` in
the source). -/
structure MapRange where
  first : Nat
  last : Nat
deriving DecidableEq

/-- `range_contains`: `range.begin <= addr && addr <= range.end`. -/
def range_contains (rg : MapRange) (addr : Nat) : Bool :=
  decide (rg.first ≤ addr) && decide (addr ≤ rg.last)

/-- `kAddressMask` from `bus_device.cpp`. -/
def kAddressMask : Nat := 0xFFFFFF

/-- `BusDevice::find_by_addr`: the first registered record whose range
contains the address. -/
def find_by_addr (devs : List (MapRange × Periph)) (addr : Nat) :
    Option (MapRange × Periph) :=
  devs.find? (fun rec => range_contains rec.1 addr)

/-- `BusDevice::read`. -/
def bus_read (devs : List (MapRange × Periph)) (addr len : Nat) :
    Except EKind (List Nat) :=
  match find_by_addr devs (addr &&& kAddressMask) with
  | some rec => rec.2.readFn (addr &&& kAddressMask) len
  | none => .error .unmappedRead

/-- `BusDevice::write`. -/
def bus_write (devs : List (MapRange × Periph)) (addr : Nat) (data : List Nat) :
    Option EKind :=
  match find_by_addr devs (addr &&& kAddressMask) with
  | some rec => rec.2.writeFn (addr &&& kAddressMask) data
  | none => some .unmappedWrite

theorem and_addr_mask (addr : Nat) : addr &&& kAddressMask = addr % 16777216 := by
  have h : kAddressMask = 2 ^ 24 - 1 := by norm_num [kAddressMask]
  rw [h, Nat.and_pow_two_sub_one_eq_mod]

theorem find?_of_first {α : Type} (p : α → Bool) (l : List α) (j : Nat)
    (hj : j < l.length) (hpj : p (l.get ⟨j, hj⟩) = true)
    (hmin : ∀ k (hk : k < j), p (l.get ⟨k, Nat.lt_trans hk hj⟩) = false) :
    l.find? p = some (l.get ⟨j, hj⟩) := by
  induction l generalizing j with
  | nil => simp at hj
  | cons x xs ih =>
    match j with
    | 0 => exact List.find?_cons_of_pos _ hpj
    | j + 1 =>
      have hx : p x = false := hmin 0 (by omega)
      rw [List.find?_cons_of_neg _ (by simp [hx])]
      exact ih j (by simpa using hj) hpj
        (fun k hk => hmin (k + 1) (by omega))

/-- C5: every bus access masks the address to 24 bits, dispatches to the
first registered peripheral (in insertion order) whose inclusive range
contains the masked address, and returns `UnmappedRead`/`UnmappedWrite`
when no registered range contains it. -/
theorem C5_bus_dispatch (devs : List (MapRange × Periph)) (addr len : Nat)
    (data : List Nat) :
    (bus_read devs addr len = bus_read devs (addr % 16777216) len) ∧
    (bus_write devs addr data = bus_write devs (addr % 16777216) data) ∧
    (∀ j (hj : j < devs.length),
      range_contains (devs.get ⟨j, hj⟩).1 (addr % 16777216) = true →
      (∀ k (hk : k < j),
        range_contains (devs.get ⟨k, Nat.lt_trans hk hj⟩).1 (addr % 16777216) = false) →
      bus_read devs addr len = (devs.get ⟨j, hj⟩).2.readFn (addr % 16777216) len ∧
      bus_write devs addr data = (devs.get ⟨j, hj⟩).2.writeFn (addr % 16777216) data) ∧
    ((∀ rec ∈ devs, range_contains rec.1 (addr % 16777216) = false) →
      bus_read devs addr len = Except.error EKind.unmappedRead ∧
      bus_write devs addr data = some EKind.unmappedWrite) := by
  have hmask : addr &&& kAddressMask = addr % 16777216 := and_addr_mask addr
  have hmask2 : addr % 16777216 &&& kAddressMask = addr % 16777216 := by
    rw [and_addr_mask]
    omega
  refine ⟨?_, ?_, ?_, ?_⟩
  · rw [bus_read, bus_read, hmask, hmask2]
  · rw [bus_write, bus_write, hmask, hmask2]
  · intro j hj hpj hmin
    have hfind : find_by_addr devs (addr % 16777216) = some (devs.get ⟨j, hj⟩) :=
      find?_of_first _ devs j hj hpj hmin
    constructor
    · rw [bus_read, hmask, hfind]
    · rw [bus_write, hmask, hfind]
  · intro hnone
    have hfind : find_by_addr devs (addr % 16777216) = none := by
      rw [find_by_addr, List.find?_eq_none]
      intro x hx
      simp [hnone x hx]
    constructor
    · rw [bus_read, hmask, hfind]
    · rw [bus_write, hmask, hfind]

/-- Concrete two-peripheral bus used as the C5 witness: the first record
maps [0x100, 0x1FF], the second [0x200, 0x2FF]. -/
def c5Devs : List (MapRange × Periph) :=
  [({ first := 0x100, last := 0x1FF },
    { readFn := fun _ _ => .ok [1], writeFn := fun _ _ => none }),
   ({ first := 0x200, last := 0x2FF },
    { readFn := fun _ _ => .ok [2], writeFn := fun _ _ => some .protectedWrite })]

/-- C5 witness: dispatch on the concrete bus; address 0x1000200 masks to
0x200 and selects the second peripheral, address 0x300 is unmapped. -/
theorem C5_bus_dispatch_witness :
    (bus_read c5Devs 0x1000200 2 = Except.ok [2]) ∧
    (bus_read c5Devs 0x300 2 = Except.error EKind.unmappedRead) := by
  constructor
  · have h := (C5_bus_dispatch c5Devs 0x1000200 2 []).2.2.1 1 (by decide)
      (by decide)
      (fun k hk => by
        match k, hk with
        | 0, _ =>
          exact (by decide :
            range_contains (MapRange.mk 0x100 0x1FF) (0x1000200 % 16777216) = false))
    exact h.1.trans (by rfl)
  · have h := (C5_bus_dispatch c5Devs 0x300 2 []).2.2.2
      (by
        intro rec hrec
        simp only [c5Devs, List.mem_cons, List.not_mem_nil, or_false] at hrec
        rcases hrec with h0 | h0
        · rw [h0]; decide
        · rw [h0]; decide)
    exact h.1

/-! ## The effective-address unit (`Target`, from `targets.cpp`)

A `Target` names an operand location.  `try_decrement_address` applies the
pending predecrement on first use and sets the sticky
`already_decremented_` flag; `try_increment_address` applies a
postincrement.  Both clamp adjustments of `A7` to a minimum of 2 bytes. -/

/-- `Target::Kind`. -/
inductive TKind where
  | dataRegister
  | addressRegister
  | address
  | addressIncrement
  | addressDecrement
  | addressDisplacement
  | addressIndex
  | programCounterDisplacement
  | programCounterIndex
  | absoluteShort
  | absoluteLong
  | immediate
deriving DecidableEq

/-- The `Target` aggregate.  The C++ object is trivially constructible; the
defaults model the `Target{}` value initialization used by the decoder. -/
structure Target where
  kind : TKind := .dataRegister
  size : Nat := 0
  index : Nat := 0
  ext_word0 : Nat := 0
  ext_word1 : Nat := 0
  address : Nat := 0
  already_decremented : Bool := false
  inc_or_dec_count : Nat := 0
deriving DecidableEq

/-- Builder `Target::kind(kind)`: also clears the sticky decrement flag when
the target becomes a predecrement one. -/
def Target.withKind (t : Target) (k : TKind) : Target :=
  if k = .addressDecrement then { t with kind := k, already_decremented := false }
  else { t with kind := k }

/-- Builder `Target::size(size)`. -/
def Target.withSize (t : Target) (s : Nat) : Target := { t with size := s }

/-- Builder `Target::index(index)`. -/
def Target.withIndex (t : Target) (i : Nat) : Target := { t with index := i }

/-- Builder `Target::ext_word0(extWord0)`. -/
def Target.withExtWord0 (t : Target) (w : Nat) : Target := { t with ext_word0 := w }

/-- Builder `Target::ext_word1(extWord1)`. -/
def Target.withExtWord1 (t : Target) (w : Nat) : Target := { t with ext_word1 := w }

/-- Builder `Target::address(address)`. -/
def Target.withAddress (t : Target) (a : Nat) : Target := { t with address := a }

/-- `Target::set_inc_or_dec_count`. -/
def Target.set_inc_or_dec_count (t : Target) (c : Nat) : Target :=
  { t with inc_or_dec_count := c }

/-- `Target::indexed_address`: base + sign-extended 8-bit displacement +
index register (word sign-extended or full long; the scale is always 1 on
the basic 68000, see `scale_value`). -/
def Target.indexed_address (t : Target) (r : Registers) (baseAddress : Nat) : Nat :=
  let xregNum := t.ext_word0 >>> 12 &&& 7
  let xreg := if t.ext_word0 >>> 15 &&& 1 = 1 then r.aReg xregNum else r.dReg xregNum
  let xsize := if t.ext_word0 >>> 11 &&& 1 = 1 then 4 else 2
  let disp := signExtByteToLong (t.ext_word0 &&& 0xFF)
  let clarifiedXreg := if xsize = 2 then signExtWordToLong xreg else long xreg
  long (baseAddress + disp + clarifiedXreg)

/-- `Target::effective_address`.  The register kinds hit
`std::unreachable()` in the source; the embedding returns 0 there. -/
def Target.effective_address (t : Target) (r : Registers) : Nat :=
  match t.kind with
  | .address | .addressIncrement | .addressDecrement => r.aReg t.index
  | .addressDisplacement => long (r.aReg t.index + signExtWordToLong t.ext_word0)
  | .addressIndex => t.indexed_address r (r.aReg t.index)
  | .programCounterDisplacement =>
      long (r.pc + 4294967296 - 2 + signExtWordToLong t.ext_word0)
  | .programCounterIndex => t.indexed_address r (long (r.pc + 4294967296 - 2))
  | .absoluteShort => signExtWordToLong t.ext_word0
  | .absoluteLong => long ((t.ext_word0 <<< 16) + t.ext_word1)
  | .immediate => t.address
  | .dataRegister => 0
  | .addressRegister => 0

/-- `Target::try_decrement_address`: on a predecrement target whose sticky
flag is still clear, subtract `size * count` from `An` (at least 2 for A7);
the sticky flag is set in every case. -/
def Target.try_decrement_address (t : Target) (r : Registers) (count : Nat) :
    Target × Registers :=
  let r' :=
    if t.kind = .addressDecrement ∧ t.already_decremented = false then
      let diff := long (t.size * count)
      let dec := if t.index = 7 then max diff 2 else diff
      r.setAReg t.index (long (r.aReg t.index + 4294967296 - dec))
    else r
  ({ t with already_decremented := true }, r')

/-- `Target::try_increment_address`: on a postincrement target, add
`size * count` to `An` (at least 2 for A7). -/
def Target.try_increment_address (t : Target) (r : Registers) (count : Nat) :
    Registers :=
  if t.kind = .addressIncrement then
    let diff := long (t.size * count)
    let inc := if t.index = 7 then max diff 2 else diff
    r.setAReg t.index (long (r.aReg t.index + inc))
  else r

/-- `Target::read`: applies the pending predecrement, then delivers the low
`len` bytes of a register (big-endian, as `read_register` builds them) or
`len` bytes of memory at the effective address. -/
def Target.read (t : Target) (r : Registers) (m : Mem) (len : Nat) :
    Target × Registers × List Nat :=
  let s := t.try_decrement_address r t.inc_or_dec_count
  match s.1.kind with
  | .dataRegister => (s.1, s.2, beBytes len (s.2.dReg s.1.index))
  | .addressRegister => (s.1, s.2, beBytes len (s.2.aReg s.1.index))
  | _ => (s.1, s.2, readBytes m (s.1.effective_address s.2) len)

/-- Helper `write_register` from `Target::write`: replace the low
`8 * data.length` bits of the register with the big-endian value of the
buffer, preserving the high bits. -/
def write_register (reg : Nat) (data : List Nat) : Nat :=
  let shift := 8 * data.length
  let lsb := beVal data
  if shift = 32 then lsb else (reg / 2 ^ shift * 2 ^ shift) % 4294967296 ||| lsb

/-- `Target::write`: applies the pending predecrement, then stores the
buffer into the register (preserving unwritten high bits) or into memory at
the effective address. -/
def Target.write (t : Target) (r : Registers) (m : Mem) (data : List Nat) :
    Target × Registers × Mem :=
  let s := t.try_decrement_address r t.inc_or_dec_count
  match s.1.kind with
  | .dataRegister =>
      (s.1, s.2.setDReg s.1.index (write_register (s.2.dReg s.1.index) data), m)
  | .addressRegister =>
      (s.1, s.2.setAReg s.1.index (write_register (s.2.aReg s.1.index) data), m)
  | .address | .addressIncrement | .addressDecrement =>
      (s.1, s.2, writeBytes m (s.2.aReg s.1.index) data)
  | .addressDisplacement =>
      (s.1, s.2, writeBytes m (long (s.2.aReg s.1.index + signExtWordToLong s.1.ext_word0)) data)
  | .addressIndex =>
      (s.1, s.2, writeBytes m (s.1.indexed_address s.2 (s.2.aReg s.1.index)) data)
  | .programCounterDisplacement =>
      (s.1, s.2, writeBytes m (long (s.2.pc + 4294967296 - 2 + signExtWordToLong s.1.ext_word0)) data)
  | .programCounterIndex =>
      (s.1, s.2, writeBytes m (s.1.indexed_address s.2 (long (s.2.pc + 4294967296 - 2))) data)
  | .absoluteShort => (s.1, s.2, writeBytes m (signExtWordToLong s.1.ext_word0) data)
  | .absoluteLong => (s.1, s.2, writeBytes m (long ((s.1.ext_word0 <<< 16) + s.1.ext_word1)) data)
  | .immediate => (s.1, s.2, writeBytes m s.1.address data)

/-- `Target::read_as_long_long`: read `size` bytes and assemble them
big-endian into a 64-bit value. -/
def Target.read_as_long_long (t : Target) (r : Registers) (m : Mem) (size : Nat) :
    Target × Registers × Nat :=
  let s := t.read r m size
  (s.1, s.2.1, beVal s.2.2)

/-- `Target::write_sized`: truncate the value to the operand size and store
it big-endian through `Target::write<T>`. -/
def Target.write_sized (t : Target) (r : Registers) (m : Mem) (value size : Nat) :
    Target × Registers × Mem :=
  t.write r m (beBytes size value)

/-- Helper `try_inc_address` from `Instruction::execute`: the used flag makes
every call after the first a no-op, so each operand's postincrement is
applied at most once per instruction. -/
def try_inc_address (t : Target) (r : Registers) (inc_count : Nat)
    (has_flag used_flag : Bool) : Registers × Bool :=
  (if has_flag = true ∧ used_flag = false then t.try_increment_address r inc_count
   else r, true)

/-! ## Claim C7: predecrement / postincrement discipline -/

/-- The adjustment applied to `An` by a pre/post step: `size * count`,
clamped to a minimum of 2 bytes for `A7` (the stack pointer). -/
def adjust_amount (size count index : Nat) : Nat :=
  if index = 7 then max (long (size * count)) 2 else long (size * count)

/-- C7: within one instruction, (1) the first read or write on a
predecrement target decrements `An` by `size * inc_or_dec_count` (at least
2 bytes for A7) and sets the sticky flag; (2) once the sticky flag is set,
further reads and writes of the same target leave every register
unchanged; (3) a postincrement adds `size * count` (at least 2 bytes for
A7) and is applied only by the executor's post-step, whose used flag makes
a second application a no-op; reads and writes of a postincrement target
do not themselves move `An`. -/
theorem C7_predecrement_postincrement (t : Target) (r : Registers) (m : Mem)
    (len : Nat) (data : List Nat) (c : Nat) (has : Bool) :
    (t.kind = TKind.addressDecrement → t.already_decremented = false →
      ((t.read r m len).2.1 =
        r.setAReg t.index
          (long (r.aReg t.index + 4294967296 -
            adjust_amount t.size t.inc_or_dec_count t.index))) ∧
      ((t.read r m len).1.already_decremented = true) ∧
      ((t.write r m data).2.1 =
        r.setAReg t.index
          (long (r.aReg t.index + 4294967296 -
            adjust_amount t.size t.inc_or_dec_count t.index))) ∧
      ((t.write r m data).1.already_decremented = true)) ∧
    (t.kind = TKind.addressDecrement → t.already_decremented = true →
      ((t.read r m len).2.1 = r) ∧ ((t.write r m data).2.1 = r)) ∧
    (t.kind = TKind.addressIncrement →
      (t.try_increment_address r c =
        r.setAReg t.index (long (r.aReg t.index + adjust_amount t.size c t.index))) ∧
      ((t.read r m len).2.1 = r) ∧ ((t.write r m data).2.1 = r)) ∧
    (t.index = 7 → 2 ≤ adjust_amount t.size c 7) ∧
    (try_inc_address t ((try_inc_address t r c has false).1) c has
        ((try_inc_address t r c has false).2) =
      ((try_inc_address t r c has false).1, true)) := by
  refine ⟨?_, ?_, ?_, ?_, ?_⟩
  · intro hk ha
    refine ⟨?_, ?_, ?_, ?_⟩ <;>
      simp [Target.read, Target.write, Target.try_decrement_address, hk, ha,
        adjust_amount]
  · intro hk ha
    constructor <;>
      simp [Target.read, Target.write, Target.try_decrement_address, hk, ha]
  · intro hk
    refine ⟨?_, ?_, ?_⟩ <;>
      simp [Target.read, Target.write, Target.try_decrement_address,
        Target.try_increment_address, hk, adjust_amount]
  · intro h7
    simp only [adjust_amount, h7, if_pos]
    exact le_max_right _ _
  · simp [try_inc_address]

/-- Concrete byte-sized predecrement target on A7 used as the C7 witness. -/
def c7T : Target :=
  { kind := TKind.addressDecrement, size := 1, index := 7, inc_or_dec_count := 1 }

/-- C7 witness: a byte-sized predecrement read through A7 (USP = 0x2000 in
user mode) moves A7 by 2 bytes, not 1, and sets the sticky flag. -/
theorem C7_predecrement_postincrement_witness :
    ((c7T.read c1Regs (fun _ => 0) 1).2.1.usp = 0x1FFE) ∧
    ((c7T.read c1Regs (fun _ => 0) 1).1.already_decremented = true) := by
  have h := (C7_predecrement_postincrement c7T c1Regs (fun _ => 0) 1 [0] 1 true).1
    rfl rfl
  constructor
  · rw [h.1]
    decide
  · exact h.2.1

/-! ## Claim C2: ADDQ / SUBQ with an address-register destination

Embeds the `AddqKind`/`SubqKind` arm of `Instruction::execute`
(`execute.cpp`), together with the flag helpers it uses.  The arm reads the
destination with `read_as_long_long(ctx, size_)` and writes it back with
`write_sized(ctx, result, size_)` — both parameterized by the ENCODED size —
and skips the flag update when the destination is an address register. -/

/-- The `OpcodeType` classification of `execute.cpp`. -/
inductive OpcodeType where
  | addType
  | andType
  | cmpType
  | eorType
  | orType
  | subType
deriving DecidableEq

/-- `is_substract_op`. -/
def is_substract_op (type : OpcodeType) : Bool :=
  type = OpcodeType.subType || type = OpcodeType.cmpType

/-- `do_binary_op` at 64-bit width (`LongLong` arithmetic, hence the
`% 2^64` wrapping; SUB/CMP compute `rhs - lhs`). -/
def do_binary_op (type : OpcodeType) (lhs rhs : Nat) : Nat :=
  match type with
  | .addType => (lhs + rhs) % 18446744073709551616
  | .andType => lhs &&& rhs
  | .eorType => lhs ^^^ rhs
  | .orType => lhs ||| rhs
  | .subType => (rhs + 18446744073709551616 - lhs % 18446744073709551616) % 18446744073709551616
  | .cmpType => (rhs + 18446744073709551616 - lhs % 18446744073709551616) % 18446744073709551616

/-- `is_carry`: whether the unbounded-width result has bits beyond the
operand size (the source tests `value & (value ^ mask)`). -/
def is_carry (value : Nat) (size : Nat) : Bool :=
  match size with
  | 1 => decide (value &&& (value ^^^ 0xFF) ≠ 0)
  | 2 => decide (value &&& (value ^^^ 0xFFFF) ≠ 0)
  | 4 => decide (value &&& (value ^^^ 0xFFFFFFFF) ≠ 0)
  | _ => false

/-- `is_zero`: the size-truncated result is zero. -/
def is_zero (value : Nat) (size : Nat) : Bool :=
  match size with
  | 1 => decide (value &&& 0xFF = 0)
  | 2 => decide (value &&& 0xFFFF = 0)
  | 4 => decide (value &&& 0xFFFFFFFF = 0)
  | _ => false

/-- `bit_count`: operand size in bits. -/
def bit_count (size : Nat) : Nat := size <<< 3

/-- `msb`: the most significant bit of the size-truncated value. -/
def msb (value : Nat) (size : Nat) : Bool :=
  value >>> (bit_count size - 1) &&& 1 = 1

/-- `is_overflow`: signed overflow of a binary operation (the left operand's
sign is flipped for subtraction before the add-overflow formula). -/
def is_overflow (lhs rhs result : Nat) (size : Nat) (type : OpcodeType) : Bool :=
  let lhsMsb := xor (msb lhs size) (is_substract_op type)
  let rhsMsb := msb rhs size
  let resultMsb := msb result size
  (lhsMsb && rhsMsb && !resultMsb) || (!lhsMsb && !rhsMsb && resultMsb)

/-- The `AddqKind`/`SubqKind` arm of `Instruction::execute`: the quick value
is `data_ ? data_ : 8`, the destination is read and written at the ENCODED
operand size, the flags are updated only when the destination is not an
address register, and the epilogue applies a pending postincrement once. -/
def execute_addq_subq (is_subq : Bool) (size : Nat) (data : Nat) (dst : Target)
    (r : Registers) (m : Mem) : Registers × Mem :=
  let dst0 := dst.set_inc_or_dec_count 1
  let type := if is_subq then OpcodeType.subType else OpcodeType.addType
  let src_val := if data = 0 then 8 else data
  let s1 := dst0.read_as_long_long r m size
  let dst_val := s1.2.2
  let result := do_binary_op type src_val dst_val
  let s2 := s1.1.write_sized s1.2.1 m (long result) size
  let r3 :=
    if s2.1.kind ≠ TKind.addressRegister then
      let carry := is_carry result size
      { s2.2.1 with sr := { s2.2.1.sr with
          negative := msb result size,
          carry := carry,
          extend := carry,
          overflow := is_overflow src_val dst_val result size type,
          zero := is_zero result size } }
    else s2.2.1
  let s3 := try_inc_address s2.1 r3 1 true false
  (s3.1, s2.2.2)

/-- Address-register destination `A0` used for the C2 evaluation. -/
def c2Dst : Target := { kind := TKind.addressRegister, index := 0 }

/-- Machine state with `A0 = 0x0000FFFF` for the C2 evaluation. -/
def c2Regs : Registers := { c1Regs with a := [0xFFFF, 0, 0, 0, 0, 0, 0] }

/-- Machine state with `A0 = 0x00010000` for the C2 SUBQ evaluation. -/
def c2Regs2 : Registers := { c1Regs with a := [0x10000, 0, 0, 0, 0, 0, 0] }

/-- C2 evaluation at the failing input: `ADDQ.W #1, A0` with
`A0 = 0x0000FFFF` leaves `A0 = 0x00000000` (the code adds within the low
word and preserves the high word), not the `0x00010000` that 32-bit
arithmetic — as the claim requires — would produce; likewise
`SUBQ.W #1, A0` with `A0 = 0x00010000` yields `0x0001FFFF`, not `0xFFFF`.
The flags are indeed left unchanged. -/
theorem C2_failing_input_eval :
    ((execute_addq_subq false 2 1 c2Dst c2Regs (fun _ => 0)).1.aReg 0 = 0) ∧
    ((execute_addq_subq false 2 1 c2Dst c2Regs (fun _ => 0)).1.sr = c2Regs.sr) ∧
    (long (0xFFFF + 1) = 0x10000) ∧
    ((0 : Nat) ≠ 0x10000) ∧
    ((execute_addq_subq true 2 1 c2Dst c2Regs2 (fun _ => 0)).1.aReg 0 = 0x1FFFF) ∧
    ((execute_addq_subq true 2 1 c2Dst c2Regs2 (fun _ => 0)).1.sr = c2Regs2.sr) ∧
    (long (0x10000 + 4294967296 - 1) = 0xFFFF) ∧
    ((0x1FFFF : Nat) ≠ 0xFFFF) := by
  refine ⟨?_, ?_, by decide, by decide, ?_, ?_, by decide, by decide⟩ <;> decide

/-! ## Claim C6: DIVU / DIVS

Embeds the `DivuKind`/`DivsKind` arm of `Instruction::execute`.  The decoder
always makes the destination a data register `Dn`; the divisor is the word
fetched from the source operand (the fetch itself is parameterized by its
value here).  On a zero divisor the arm sets S=1, pushes PC then SR onto the
supervisor stack, loads PC through vector 5 (address 0x14) and zeroes
N, Z, V, C.  `DIVS` of `INT_MIN / -1` is undefined behavior in the C++; the
embedding uses mathematical truncated division there, on which the overflow
test fires just as it does for every other doubly-out-of-range quotient. -/

/-- The `DivuKind`/`DivsKind` arm of `Instruction::execute`. -/
def execute_div (is_divs : Bool) (src_val : Nat) (n : Nat) (r : Registers)
    (m : Mem) : Registers × Mem :=
  let dst_val := r.dReg n
  if src_val = 0 then
    let r1 := { r with sr := { r.sr with supervisor := true } }
    let sp1 := long (r1.ssp + 4294967296 - 4)
    let m1 := writeBE m sp1 4 r1.pc
    let sp2 := long (sp1 + 4294967296 - 2)
    let m2 := writeBE m1 sp2 2 r1.sr.toWord
    let new_pc := readBE m2 (5 * 4) 4
    let r2 := { r1 with
      ssp := sp2
      pc := new_pc
      sr := { r1.sr with
        negative := false
        zero := false
        overflow := false
        carry := false } }
    (r2, m2)
  else
    let qro :=
      if is_divs then
        let signed_dst_val := toSigned32 dst_val
        let signed_src_val := toSigned16 src_val
        let signed_quotient := Int.tdiv signed_dst_val signed_src_val
        (toUnsigned32 signed_quotient,
         toUnsigned32 (Int.tmod signed_dst_val signed_src_val),
         decide (signed_quotient < -32768 ∨ 32767 < signed_quotient))
      else
        (dst_val / src_val, dst_val % src_val, decide (65535 < dst_val / src_val))
    let quotient := qro.1
    let remainder := qro.2.1
    if qro.2.2 then
      ({ r with sr := { r.sr with overflow := true, carry := false } }, m)
    else
      let result := (remainder &&& 0xFFFF) <<< 16 ||| (quotient &&& 0xFFFF)
      let r1 := r.setDReg n result
      let r2 := { r1 with
        sr := { r1.sr with
          overflow := false
          negative := msb quotient 2
          zero := decide (quotient = 0)
          carry := false } }
      (r2, m)

theorem msb_word_eq (q : Nat) : msb q 2 = decide (32768 ≤ q % 65536) := by
  unfold msb bit_count
  rw [show (2 <<< 3 - 1) = 15 by decide, Nat.and_one_is_mod,
    Nat.shiftRight_eq_div_pow]
  rw [show (2 : Nat) ^ 15 = 32768 by norm_num]
  rw [decide_eq_decide]
  omega

theorem or_shift16_eq (a b : Nat) :
    (a &&& 0xFFFF) <<< 16 ||| (b &&& 0xFFFF) = a % 65536 * 65536 + b % 65536 := by
  have ha : a &&& 0xFFFF = a % 65536 := by
    have h := Nat.and_pow_two_sub_one_eq_mod a 16
    norm_num at h
    exact h
  have hb : b &&& 0xFFFF = b % 65536 := by
    have h := Nat.and_pow_two_sub_one_eq_mod b 16
    norm_num at h
    exact h
  rw [ha, hb, Nat.shiftLeft_eq, show (2 : Nat) ^ 16 = 65536 by norm_num]
  have hb2 : b % 65536 < 2 ^ 16 := by norm_num [Nat.mod_lt]
  have h := Nat.mul_add_lt_is_or hb2 (a % 65536)
  rw [show (2 : Nat) ^ 16 = 65536 by norm_num,
    Nat.mul_comm 65536 (a % 65536)] at h
  exact h.symm

theorem getD_set_self (l : List Nat) (n v : Nat) (h : n < l.length) :
    (l.set n v).getD n 0 = v := by
  rw [List.getD_eq_getElem?_getD, List.getElem?_set_self (by omega)]
  rfl

theorem div_zero_spec (is_divs : Bool) (n : Nat) (r : Registers) (m : Mem)
    (hssp1 : 0x1E ≤ r.ssp) (hssp2 : r.ssp < 4294967296)
    (hpc : r.pc < 4294967296) :
    ((execute_div is_divs 0 n r m).1.sr.supervisor = true) ∧
    ((execute_div is_divs 0 n r m).1.d = r.d) ∧
    ((execute_div is_divs 0 n r m).1.ssp = r.ssp - 6) ∧
    ((execute_div is_divs 0 n r m).1.usp = r.usp) ∧
    ((execute_div is_divs 0 n r m).1.pc = readBE m 0x14 4) ∧
    ((execute_div is_divs 0 n r m).1.sr.negative = false) ∧
    ((execute_div is_divs 0 n r m).1.sr.zero = false) ∧
    ((execute_div is_divs 0 n r m).1.sr.overflow = false) ∧
    ((execute_div is_divs 0 n r m).1.sr.carry = false) ∧
    (readBE (execute_div is_divs 0 n r m).2 (r.ssp - 4) 4 = r.pc) ∧
    (readBE (execute_div is_divs 0 n r m).2 (r.ssp - 6) 2 =
      StatusRegister.toWord { r.sr with supervisor := true }) := by
  have h1 : long (r.ssp + 4294967296 - 4) = r.ssp - 4 := by unfold long; omega
  have h2 : long (r.ssp - 4 + 4294967296 - 2) = r.ssp - 6 := by unfold long; omega
  have h32 : (2 : Nat) ^ (8 * 4) = 4294967296 := by norm_num
  unfold execute_div
  simp only [if_pos rfl, reduceIte, h1, h2]
  refine ⟨by trivial, by trivial, by trivial, by trivial, ?_, by trivial,
    by trivial, by trivial, by trivial, ?_, ?_⟩
  · rw [readBE_writeBE_below _ _ _ _ _ _ (by omega),
      readBE_writeBE_below _ _ _ _ _ _ (by omega)]
  · rw [readBE_writeBE_above _ _ _ _ _ _ (by omega), readBE_writeBE, h32]
    omega
  · rw [readBE_writeBE]
    exact Nat.mod_eq_of_lt (StatusRegister.toWord_lt _)

theorem divu_overflow_spec (src_val n : Nat) (r : Registers) (m : Mem)
    (hsrc : src_val ≠ 0) (hover : 65535 < r.dReg n / src_val) :
    ((execute_div false src_val n r m).1.d = r.d) ∧
    ((execute_div false src_val n r m).1.sr.overflow = true) ∧
    ((execute_div false src_val n r m).1.sr.carry = false) ∧
    ((execute_div false src_val n r m).1.sr.negative = r.sr.negative) ∧
    ((execute_div false src_val n r m).1.sr.zero = r.sr.zero) ∧
    ((execute_div false src_val n r m).2 = m) := by
  unfold execute_div
  simp [hsrc, hover]

theorem divu_success_spec (src_val n : Nat) (r : Registers) (m : Mem)
    (hn : n < 8) (hlen : r.d.length = 8)
    (hsrc : src_val ≠ 0) (hq : r.dReg n / src_val ≤ 65535) :
    ((execute_div false src_val n r m).1.dReg n =
      r.dReg n % src_val % 65536 * 65536 + r.dReg n / src_val % 65536) ∧
    ((execute_div false src_val n r m).1.sr.negative =
      decide (32768 ≤ r.dReg n / src_val % 65536)) ∧
    ((execute_div false src_val n r m).1.sr.zero =
      decide (r.dReg n / src_val = 0)) ∧
    ((execute_div false src_val n r m).1.sr.overflow = false) ∧
    ((execute_div false src_val n r m).1.sr.carry = false) ∧
    ((execute_div false src_val n r m).2 = m) := by
  have hnot : ¬ (65535 < r.dReg n / src_val) := by omega
  unfold execute_div
  simp only [if_neg hsrc, Bool.false_eq_true, if_false, decide_eq_false hnot]
  refine ⟨?_, ?_, by trivial, by trivial, by trivial, by trivial⟩
  · simp only [Registers.dReg, Registers.setDReg]
    rw [getD_set_self _ _ _ (by omega), or_shift16_eq]
  · exact msb_word_eq _

theorem divs_overflow_spec (src_val n : Nat) (r : Registers) (m : Mem)
    (hsrc : src_val ≠ 0)
    (hover : Int.tdiv (toSigned32 (r.dReg n)) (toSigned16 src_val) < -32768 ∨
      32767 < Int.tdiv (toSigned32 (r.dReg n)) (toSigned16 src_val)) :
    ((execute_div true src_val n r m).1.d = r.d) ∧
    ((execute_div true src_val n r m).1.sr.overflow = true) ∧
    ((execute_div true src_val n r m).1.sr.carry = false) ∧
    ((execute_div true src_val n r m).2 = m) := by
  unfold execute_div
  simp [hsrc, hover]

theorem divs_success_spec (src_val n : Nat) (r : Registers) (m : Mem)
    (hn : n < 8) (hlen : r.d.length = 8)
    (hsrc : src_val ≠ 0)
    (hlo : -32768 ≤ Int.tdiv (toSigned32 (r.dReg n)) (toSigned16 src_val))
    (hhi : Int.tdiv (toSigned32 (r.dReg n)) (toSigned16 src_val) ≤ 32767) :
    ((execute_div true src_val n r m).1.dReg n =
      toUnsigned32 (Int.tmod (toSigned32 (r.dReg n)) (toSigned16 src_val)) % 65536 * 65536 +
      toUnsigned32 (Int.tdiv (toSigned32 (r.dReg n)) (toSigned16 src_val)) % 65536) ∧
    ((execute_div true src_val n r m).1.sr.negative =
      decide (32768 ≤ toUnsigned32 (Int.tdiv (toSigned32 (r.dReg n)) (toSigned16 src_val)) % 65536)) ∧
    ((execute_div true src_val n r m).1.sr.zero =
      decide (toUnsigned32 (Int.tdiv (toSigned32 (r.dReg n)) (toSigned16 src_val)) = 0)) ∧
    ((execute_div true src_val n r m).1.sr.overflow = false) ∧
    ((execute_div true src_val n r m).1.sr.carry = false) ∧
    ((execute_div true src_val n r m).2 = m) := by
  have hnot : ¬ (Int.tdiv (toSigned32 (r.dReg n)) (toSigned16 src_val) < -32768 ∨
      32767 < Int.tdiv (toSigned32 (r.dReg n)) (toSigned16 src_val)) := by omega
  unfold execute_div
  simp only [if_neg hsrc, if_true, decide_eq_false hnot, Bool.false_eq_true,
    if_false]
  refine ⟨?_, ?_, by trivial, by trivial, by trivial, by trivial⟩
  · simp only [Registers.dReg, Registers.setDReg]
    rw [getD_set_self _ _ _ (by omega), or_shift16_eq]
  · exact msb_word_eq _

/-- C6: for every DIVU or DIVS, (a) a zero divisor takes the zero-divide
exception through vector 5 — S=1, PC then SR pushed on the supervisor
stack, PC loaded from address 0x14, N, Z, V, C zeroed, destination
unchanged; (b) an unsigned-word (DIVU) or signed-word (DIVS) quotient
overflow sets V=1, clears C and writes no result; (c) otherwise the
destination receives `(remainder << 16) | (quotient & 0xFFFF)` with
N = msb of the word quotient, Z = (quotient = 0), V = 0; C = 0 in every
non-exception case. -/
theorem C6_div_semantics (is_divs : Bool) (src_val n : Nat) (r : Registers)
    (m : Mem) :
    ((0x1E ≤ r.ssp) → (r.ssp < 4294967296) → (r.pc < 4294967296) →
      ((execute_div is_divs 0 n r m).1.sr.supervisor = true) ∧
      ((execute_div is_divs 0 n r m).1.d = r.d) ∧
      ((execute_div is_divs 0 n r m).1.ssp = r.ssp - 6) ∧
      ((execute_div is_divs 0 n r m).1.usp = r.usp) ∧
      ((execute_div is_divs 0 n r m).1.pc = readBE m 0x14 4) ∧
      ((execute_div is_divs 0 n r m).1.sr.negative = false) ∧
      ((execute_div is_divs 0 n r m).1.sr.zero = false) ∧
      ((execute_div is_divs 0 n r m).1.sr.overflow = false) ∧
      ((execute_div is_divs 0 n r m).1.sr.carry = false) ∧
      (readBE (execute_div is_divs 0 n r m).2 (r.ssp - 4) 4 = r.pc) ∧
      (readBE (execute_div is_divs 0 n r m).2 (r.ssp - 6) 2 =
        StatusRegister.toWord { r.sr with supervisor := true })) ∧
    ((src_val ≠ 0) → (65535 < r.dReg n / src_val) →
      ((execute_div false src_val n r m).1.d = r.d) ∧
      ((execute_div false src_val n r m).1.sr.overflow = true) ∧
      ((execute_div false src_val n r m).1.sr.carry = false) ∧
      ((execute_div false src_val n r m).2 = m)) ∧
    ((n < 8) → (r.d.length = 8) → (src_val ≠ 0) → (r.dReg n / src_val ≤ 65535) →
      ((execute_div false src_val n r m).1.dReg n =
        r.dReg n % src_val % 65536 * 65536 + r.dReg n / src_val % 65536) ∧
      ((execute_div false src_val n r m).1.sr.negative =
        decide (32768 ≤ r.dReg n / src_val % 65536)) ∧
      ((execute_div false src_val n r m).1.sr.zero =
        decide (r.dReg n / src_val = 0)) ∧
      ((execute_div false src_val n r m).1.sr.overflow = false) ∧
      ((execute_div false src_val n r m).1.sr.carry = false)) ∧
    ((src_val ≠ 0) →
      (Int.tdiv (toSigned32 (r.dReg n)) (toSigned16 src_val) < -32768 ∨
        32767 < Int.tdiv (toSigned32 (r.dReg n)) (toSigned16 src_val)) →
      ((execute_div true src_val n r m).1.d = r.d) ∧
      ((execute_div true src_val n r m).1.sr.overflow = true) ∧
      ((execute_div true src_val n r m).1.sr.carry = false) ∧
      ((execute_div true src_val n r m).2 = m)) ∧
    ((n < 8) → (r.d.length = 8) → (src_val ≠ 0) →
      (-32768 ≤ Int.tdiv (toSigned32 (r.dReg n)) (toSigned16 src_val)) →
      (Int.tdiv (toSigned32 (r.dReg n)) (toSigned16 src_val) ≤ 32767) →
      ((execute_div true src_val n r m).1.dReg n =
        toUnsigned32 (Int.tmod (toSigned32 (r.dReg n)) (toSigned16 src_val)) % 65536 * 65536 +
        toUnsigned32 (Int.tdiv (toSigned32 (r.dReg n)) (toSigned16 src_val)) % 65536) ∧
      ((execute_div true src_val n r m).1.sr.negative =
        decide (32768 ≤ toUnsigned32 (Int.tdiv (toSigned32 (r.dReg n)) (toSigned16 src_val)) % 65536)) ∧
      ((execute_div true src_val n r m).1.sr.zero =
        decide (toUnsigned32 (Int.tdiv (toSigned32 (r.dReg n)) (toSigned16 src_val)) = 0)) ∧
      ((execute_div true src_val n r m).1.sr.overflow = false) ∧
      ((execute_div true src_val n r m).1.sr.carry = false)) := by
  refine ⟨?_, ?_, ?_, ?_, ?_⟩
  · intro hssp1 hssp2 hpc
    exact div_zero_spec is_divs n r m hssp1 hssp2 hpc
  · intro hsrc hover
    have h := divu_overflow_spec src_val n r m hsrc hover
    exact ⟨h.1, h.2.1, h.2.2.1, h.2.2.2.2.2⟩
  · intro hn hlen hsrc hq
    have h := divu_success_spec src_val n r m hn hlen hsrc hq
    exact ⟨h.1, h.2.1, h.2.2.1, h.2.2.2.1, h.2.2.2.2.1⟩
  · intro hsrc hover
    exact divs_overflow_spec src_val n r m hsrc hover
  · intro hn hlen hsrc hlo hhi
    have h := divs_success_spec src_val n r m hn hlen hsrc hlo hhi
    exact ⟨h.1, h.2.1, h.2.2.1, h.2.2.2.1, h.2.2.2.2.1⟩

/-- Machine state for the C6 witness: `D0 = 9`, supervisor mode with
SSP = 0x3000. -/
def c6Regs : Registers :=
  { d := [9, 0, 0, 0, 0, 0, 0, 0], a := [0, 0, 0, 0, 0, 0, 0],
    usp := 0x2000, ssp := 0x3000, pc := 0x100,
    sr := { carry := false, overflow := false, zero := false, negative := false,
            extend := false, interrupt_mask := 0, master_switch := false,
            supervisor := true, trace := 0 } }

/-- C6 witness: `DIVU` of `D0 = 9` by 4 packs remainder 1 and quotient 2
into `D0 = 0x00010002` with N=0, Z=0, V=0, C=0; and a zero divisor with the
same state pushes a frame at SSP−6 and jumps through vector 5. -/
theorem C6_div_semantics_witness :
    ((execute_div false 4 0 c6Regs (fun _ => 0)).1.dReg 0 = 0x10002) ∧
    ((execute_div false 4 0 c6Regs (fun _ => 0)).1.sr.negative = false) ∧
    ((execute_div false 4 0 c6Regs (fun _ => 0)).1.sr.zero = false) ∧
    ((execute_div false 4 0 c6Regs (fun _ => 0)).1.sr.overflow = false) ∧
    ((execute_div false 4 0 c6Regs (fun _ => 0)).1.sr.carry = false) ∧
    ((execute_div true 0 0 c6Regs (fun _ => 0)).1.ssp = 0x3000 - 6) ∧
    ((execute_div true 0 0 c6Regs (fun _ => 0)).1.sr.supervisor = true) := by
  have h1 := (C6_div_semantics false 4 0 c6Regs (fun _ => 0)).2.2.1
    (by decide) (by decide) (by decide) (by decide)
  have h2 := (C6_div_semantics true 0 0 c6Regs (fun _ => 0)).1
    (by decide) (by decide) (by decide)
  refine ⟨?_, ?_, ?_, h1.2.2.2.1, h1.2.2.2.2, ?_, h2.1⟩
  · rw [h1.1]; decide
  · rw [h1.2.1]; decide
  · rw [h1.2.2.1]; decide
  · rw [h2.2.2.1]; decide

/-! ## The VDP (`vdp_device.cpp`)

State, register-file writes, the two-word control protocol, the data port
and the DMA paths are embedded below.  The three internal RAMs are byte
stores; `ram_address_` is a `uint16_t` in the source, so every update wraps
modulo 65536 (`word16`).  The data-port and fill paths additionally return
the list of RAM indices they access, which claim C3 is about. -/

/-- `VdpDevice::RamKind`. -/
inductive RamKind where
  | vram
  | vsram
  | cram
deriving DecidableEq

/-- `VdpDevice::DmaType`. -/
inductive DmaType where
  | memoryToVram
  | vramFill
  | vramCopy
deriving DecidableEq

/-- `kVramSize`. -/
def kVramSize : Nat := 65536

/-- `kVsramSize`. -/
def kVsramSize : Nat := 80

/-- `kCramSize`. -/
def kCramSize : Nat := 128

/-- Size of the currently selected RAM (`ram_data().size()`). -/
def ram_size : RamKind → Nat
  | .vram => kVramSize
  | .vsram => kVsramSize
  | .cram => kCramSize

/-- The mutable state of `VdpDevice` (registers mirror, derived fields,
pending first command word, current RAM address/kind, and the three RAMs). -/
structure VdpState where
  allow_dma : Bool := false
  vblank_interrupt_enabled : Bool := false
  dma_length_words : Nat := 0
  dma_source_words : Nat := 0
  dma_type : DmaType := .memoryToVram
  auto_increment : Nat := 0
  width : Nat := 0
  height : Nat := 0
  plane_width : Nat := 0
  plane_height : Nat := 0
  horizontal_scroll_mode : Nat := 0
  vertical_scroll_mode : Nat := 0
  hscroll_table_address : Nat := 0
  plane_a_table_address : Nat := 0
  plane_b_table_address : Nat := 0
  window_table_address : Nat := 0
  window_x_split : Nat := 0
  window_y_split : Nat := 0
  window_display_to_the_right : Bool := false
  window_display_below : Bool := false
  sprite_table_address : Nat := 0
  background_color_palette : Nat := 0
  background_color_index : Nat := 0
  first_half : Option Nat := none
  use_dma : Bool := false
  ram_kind : RamKind := .vram
  ram_address : Nat := 0
  registers : List Nat := List.replicate 24 0
  vram : Mem := fun _ => 0
  vsram : Mem := fun _ => 0
  cram : Mem := fun _ => 0

/-- `VdpDevice::ram_data()`: the currently selected RAM. -/
def VdpState.ram_data (s : VdpState) : Mem :=
  match s.ram_kind with
  | .vram => s.vram
  | .vsram => s.vsram
  | .cram => s.cram

/-- Update of the currently selected RAM. -/
def VdpState.set_ram (s : VdpState) (f : Mem → Mem) : VdpState :=
  match s.ram_kind with
  | .vram => { s with vram := f s.vram }
  | .vsram => { s with vsram := f s.vsram }
  | .cram => { s with cram := f s.cram }

/-- Bit `i` of a register value. -/
def vbit (v i : Nat) : Bool := v >>> i &&& 1 = 1

/-- `process_mode1_set`: log only. -/
def process_mode1_set (_value : Nat) (s : VdpState) : VdpState := s

/-- `process_mode2_set`: bit 4 is `allow_dma`, bit 5 is
`enable_vblank_interrupt`, bit 3 the vertical resolution (28/30 tiles). -/
def process_mode2_set (value : Nat) (s : VdpState) : VdpState :=
  { s with
    allow_dma := vbit value 4
    vblank_interrupt_enabled := vbit value 5
    height := if vbit value 3 then 30 else 28 }

/-- `process_plane_a_table_address`: bits 3..6 scaled by 0x2000. -/
def process_plane_a_table_address (value : Nat) (s : VdpState) : VdpState :=
  { s with plane_a_table_address := 0x2000 * (value >>> 3 &&& 0xF) }

/-- `process_window_table_address`: bits 1..6 scaled by 0x800. -/
def process_window_table_address (value : Nat) (s : VdpState) : VdpState :=
  { s with window_table_address := 0x800 * (value >>> 1 &&& 0x3F) }

/-- `process_plane_b_table_address`: bits 0..3 scaled by 0x2000. -/
def process_plane_b_table_address (value : Nat) (s : VdpState) : VdpState :=
  { s with plane_b_table_address := 0x2000 * (value &&& 0xF) }

/-- `process_sprite_table_address`: the whole byte scaled by 0x200. -/
def process_sprite_table_address (value : Nat) (s : VdpState) : VdpState :=
  { s with sprite_table_address := 0x200 * (value &&& 0xFF) }

/-- `process_background_color`: index in bits 0..3, palette in bits 4..5. -/
def process_background_color (value : Nat) (s : VdpState) : VdpState :=
  { s with
    background_color_palette := value >>> 4 &&& 0x3
    background_color_index := value &&& 0xF }

/-- `process_hblank_interrupt_rate`: log only. -/
def process_hblank_interrupt_rate (_value : Nat) (s : VdpState) : VdpState := s

/-- `process_mode3_set`: horizontal scroll mode in bits 0..1, vertical in
bit 2. -/
def process_mode3_set (value : Nat) (s : VdpState) : VdpState :=
  { s with
    horizontal_scroll_mode := value &&& 0x3
    vertical_scroll_mode := value >>> 2 &&& 0x1 }

/-- `process_mode4_set`: bit 0 selects H32 (32 tiles) or H40 (40 tiles). -/
def process_mode4_set (value : Nat) (s : VdpState) : VdpState :=
  { s with width := if vbit value 0 then 40 else 32 }

/-- `process_hscroll_table_address`: bits 0..6 scaled by 0x400. -/
def process_hscroll_table_address (value : Nat) (s : VdpState) : VdpState :=
  { s with hscroll_table_address := 0x400 * (value &&& 0x7F) }

/-- `process_auto_increment`. -/
def process_auto_increment (value : Nat) (s : VdpState) : VdpState :=
  { s with auto_increment := value }

/-- The `to_value` mapping of `process_plane_size` (the source's switch has
no case for 0b10, undefined behavior; the embedding returns 0 there). -/
def plane_size_to_value (bits : Nat) : Nat :=
  if bits = 0 then 32 else if bits = 1 then 64 else if bits = 3 then 128 else 0

/-- `process_plane_size`: width in bits 0..1, height in bits 4..5. -/
def process_plane_size (value : Nat) (s : VdpState) : VdpState :=
  { s with
    plane_width := plane_size_to_value (value &&& 0x3)
    plane_height := plane_size_to_value (value >>> 4 &&& 0x3) }

/-- `process_window_x_division`: split in bits 0..4 scaled by 16, direction
in bit 7. -/
def process_window_x_division (value : Nat) (s : VdpState) : VdpState :=
  { s with
    window_x_split := (value &&& 0x1F) * 16
    window_display_to_the_right := vbit value 7 }

/-- `process_window_y_division`: split in bits 0..4 scaled by 8, direction
in bit 7. -/
def process_window_y_division (value : Nat) (s : VdpState) : VdpState :=
  { s with
    window_y_split := (value &&& 0x1F) * 8
    window_display_below := vbit value 7 }

/-- `process_dma_length_low`. -/
def process_dma_length_low (value : Nat) (s : VdpState) : VdpState :=
  { s with dma_length_words := s.dma_length_words &&& 0xFF00 ||| value }

/-- `process_dma_length_high`. -/
def process_dma_length_high (value : Nat) (s : VdpState) : VdpState :=
  { s with dma_length_words := s.dma_length_words &&& 0x00FF ||| value <<< 8 }

/-- `process_dma_source_low`. -/
def process_dma_source_low (value : Nat) (s : VdpState) : VdpState :=
  { s with dma_source_words := s.dma_source_words &&& 0xFFFF00 ||| value }

/-- `process_dma_source_middle`. -/
def process_dma_source_middle (value : Nat) (s : VdpState) : VdpState :=
  { s with dma_source_words := s.dma_source_words &&& 0xFF00FF ||| value <<< 8 }

/-- `process_dma_source_high`: 6 source bits into bits 16..21, the top 2
bits pick the DMA type (codes 00/01 ⇒ memory-to-VRAM, with code 01 also
setting bit 22, 10 ⇒ VRAM fill, 11 ⇒ VRAM copy). -/
def process_dma_source_high (value : Nat) (s : VdpState) : VdpState :=
  let op := value >>> 6 &&& 0x3
  let dsw0 := s.dma_source_words &&& 0x00FFFF ||| (value &&& 0x3F) <<< 16
  let dsw := if op = 1 then dsw0 ||| 1 <<< 22 else dsw0
  { s with
    dma_source_words := dsw
    dma_type := if op = 2 then DmaType.vramFill
      else if op = 3 then DmaType.vramCopy else DmaType.memoryToVram }

/-- `VdpDevice::process_vdp_register`: byte-addressed register 0x80..0x97
receives the low 8 bits; an index outside the implemented set returns
`InvalidWrite` before anything (including the register mirror) changes;
otherwise the mirror byte `registers_[kind - 0x80]` is updated last. -/
def process_vdp_register (data : Nat) (s : VdpState) : Option EKind × VdpState :=
  let kind := data >>> 8
  let value := data &&& 0xFF
  let upd : Option VdpState :=
    if kind = 0x80 then some (process_mode1_set value s)
    else if kind = 0x81 then some (process_mode2_set value s)
    else if kind = 0x82 then some (process_plane_a_table_address value s)
    else if kind = 0x83 then some (process_window_table_address value s)
    else if kind = 0x84 then some (process_plane_b_table_address value s)
    else if kind = 0x85 then some (process_sprite_table_address value s)
    else if kind = 0x87 then some (process_background_color value s)
    else if kind = 0x8A then some (process_hblank_interrupt_rate value s)
    else if kind = 0x8B then some (process_mode3_set value s)
    else if kind = 0x8C then some (process_mode4_set value s)
    else if kind = 0x8D then some (process_hscroll_table_address value s)
    else if kind = 0x8F then some (process_auto_increment value s)
    else if kind = 0x90 then some (process_plane_size value s)
    else if kind = 0x91 then some (process_window_x_division value s)
    else if kind = 0x92 then some (process_window_y_division value s)
    else if kind = 0x93 then some (process_dma_length_low value s)
    else if kind = 0x94 then some (process_dma_length_high value s)
    else if kind = 0x95 then some (process_dma_source_low value s)
    else if kind = 0x96 then some (process_dma_source_middle value s)
    else if kind = 0x97 then some (process_dma_source_high value s)
    else if kind = 0x86 ∨ kind = 0x88 ∨ kind = 0x89 ∨ kind = 0x8E then some s
    else none
  match upd with
  | some s' => (none, { s' with registers := s'.registers.set (kind - 0x80) value })
  | none => (some EKind.invalidWrite, s)

/-- One step of the slow (word-by-word) memory-to-VRAM DMA loop: read one
16-bit word over the bus, store it at `ram_address`, advance by
`auto_increment` (16-bit wrap). -/
def dma_slow_loop (bus : Nat → Nat → Except EKind (List Nat))
    (source_start auto_inc : Nat) :
    Nat → Nat → VdpState → Option EKind × VdpState
  | _, 0, s => (none, s)
  | i, k + 1, s =>
    match bus (long (source_start + i * 2)) 2 with
    | .error e => (some e, s)
    | .ok bytes =>
      let s' := { s.set_ram (fun ram => writeBytes ram s.ram_address bytes) with
        ram_address := word16 (s.ram_address + auto_inc) }
      dma_slow_loop bus source_start auto_inc (i + 1) k s'

/-- `VdpDevice::process_vdp_control`: a word whose top three bits are 100 is
a register write; otherwise the two-word address+command protocol runs,
possibly triggering an immediate memory-to-VRAM DMA.  Mirrors the source's
mutation order: `ram_address_` and `use_dma_` are set before the `cd` mask
is validated, and the pending first word is cleared only on the successful
paths. -/
def process_vdp_control (bus : Nat → Nat → Except EKind (List Nat))
    (command : Nat) (s : VdpState) : Option EKind × VdpState :=
  if command &&& 0b1110000000000000 = 0b1000000000000000 then
    process_vdp_register command s
  else
    match s.first_half with
    | none => (none, { s with first_half := some command })
    | some fh =>
      let value := fh <<< 16 ||| command
      let cd0 := value >>> 30 &&& 1
      let cd1 := value >>> 31 &&& 1
      let cd2 := value >>> 4 &&& 1
      let cd3 := value >>> 5 &&& 1
      let cd5 := value >>> 7 &&& 1
      let s1 := { s with
        ram_address := (value &&& 0x3FFF0000) >>> 16 ||| (value &&& 0x3) <<< 14
        use_dma := cd5 = 1 && s.allow_dma }
      let mask := cd3 <<< 3 ||| cd2 <<< 2 ||| cd1 <<< 1 ||| cd0
      let kindOpt : Option RamKind :=
        if mask = 0b0001 ∨ mask = 0b0000 then some RamKind.vram
        else if mask = 0b0011 ∨ mask = 0b1000 then some RamKind.cram
        else if mask = 0b0101 ∨ mask = 0b0100 then some RamKind.vsram
        else none
      match kindOpt with
      | none => (some EKind.invalidWrite, s1)
      | some rk =>
        let s2 := { s1 with ram_kind := rk }
        if s2.use_dma ∧ s2.dma_type = DmaType.vramCopy then
          (some EKind.invalidWrite, s2)
        else if s2.use_dma ∧ s2.dma_type = DmaType.memoryToVram then
          let source_start := long (s2.dma_source_words <<< 1)
          let len := long (s2.dma_length_words <<< 1)
          if s2.auto_increment = 2 then
            let safe_len := min len
              (long ((ram_size s2.ram_kind + 18446744073709551616 - s2.ram_address) %
                18446744073709551616))
            match bus source_start safe_len with
            | .error e => (some e, s2)
            | .ok bytes =>
              let s3 := s2.set_ram (fun ram => writeBytes ram s2.ram_address bytes)
              (none, { s3 with
                ram_address := word16 (s3.ram_address + len)
                use_dma := false
                first_half := none })
          else
            match dma_slow_loop bus source_start s2.auto_increment 0
                s2.dma_length_words s2 with
            | (some e, s3) => (some e, s3)
            | (none, s3) => (none, { s3 with use_dma := false, first_half := none })
        else
          (none, { s2 with first_half := none })

/-- The VRAM-fill loop of `process_vdp_data`: store the low byte of the
fill value `len` times, advancing `ram_address` by `auto_increment` with
16-bit wrap; also returns the accessed indices. -/
def vram_fill_loop (b auto_inc : Nat) : Nat → Nat → Mem → Mem × Nat × List Nat
  | 0, ra, ram => (ram, ra, [])
  | k + 1, ra, ram =>
    let next := vram_fill_loop b auto_inc k (word16 (ra + auto_inc)) (memWrite ram ra b)
    (next.1, next.2.1, ra :: next.2.2)

/-- `VdpDevice::process_vdp_data` (a 16-bit data-port write), returning the
error, the new state and the list of RAM indices accessed.  With an armed
DMA of a type other than VRAM fill the source calls `std::abort()`.  The
VRAM-fill path first toggles bit 0 of `ram_address` when
`auto_increment > 1`, then fills without any bounds check; the plain write
path stores the word big-endian only when `ram_address + 1 < ram.size()`,
and advances `ram_address` in every case. -/
def process_vdp_data (data : Nat) (s : VdpState) :
    Option EKind × VdpState × List Nat :=
  if s.use_dma ∧ s.dma_type ≠ DmaType.vramFill then
    (some EKind.unreachableHit, s, [])
  else if s.use_dma then
    let len := long (s.dma_length_words <<< 1)
    let ra0 :=
      if 1 < s.auto_increment then
        if s.ram_address % 2 = 0 then word16 (s.ram_address + 1)
        else word16 (s.ram_address + 65536 - 1)
      else s.ram_address
    let fill := vram_fill_loop (data &&& 0xFF) s.auto_increment len ra0 (s.ram_data)
    let s' := { s.set_ram (fun _ => fill.1) with
      ram_address := fill.2.1
      use_dma := false }
    (none, s', fill.2.2)
  else
    let withWrite :=
      if s.ram_address + 1 < ram_size s.ram_kind then
        (s.set_ram (fun ram =>
          memWrite (memWrite ram s.ram_address (data >>> 8)) (s.ram_address + 1) data),
         [s.ram_address, s.ram_address + 1])
      else (s, ([] : List Nat))
    (none, { withWrite.1 with ram_address := word16 (s.ram_address + s.auto_increment) },
     withWrite.2)

/-- The data-port case of `VdpDevice::read` for a 2-byte access: two bytes
are fetched from the selected RAM at `ram_address_++` and `ram_address_++`
again, with no bounds check (`// TODO: maybe check for bounds?` in the
source).  Returns the bytes, the new state and the accessed indices. -/
def data_port_read (s : VdpState) : List Nat × VdpState × List Nat :=
  let i0 := s.ram_address
  let i1 := word16 (s.ram_address + 1)
  ([s.ram_data i0 % 256, s.ram_data i1 % 256],
   { s with ram_address := word16 (s.ram_address + 2) },
   [i0, i1])

/-! ## Claim C3: bounds of VDP RAM accesses -/

/-- A bus that answers nothing; the C3 command sequences perform no DMA. -/
def busNone : Nat → Nat → Except EKind (List Nat) :=
  fun _ _ => Except.error EKind.unmappedRead

/-- The VDP state after the two-word command 0x4050 0x0010 (VSRAM write
mode, RAM address 80). -/
def c3S2 : VdpState :=
  (process_vdp_control busNone 0x0010
    ((process_vdp_control busNone 0x4050 ({} : VdpState)).2)).2

/-- C3 counterexample: the control-port sequence 0x4050, 0x0010 selects
VSRAM with `ram_address = 80`; the very next data-port read then accesses
indices 80 and 81 of the 80-byte VSRAM — `0 ≤ ram_address < size` is NOT
enforced at that access (the source marks the spot
`// TODO: maybe check for bounds?`). -/
theorem C3_counterexample :
    (c3S2.ram_kind = RamKind.vsram) ∧
    (c3S2.ram_address = 80) ∧
    ((data_port_read c3S2).2.2 = [80, 81]) ∧
    ¬ (80 < ram_size RamKind.vsram) := by
  refine ⟨rfl, rfl, rfl, by decide⟩

theorem vram_fill_loop_indices (b auto_inc : Nat) (k : Nat) (ra : Nat) (ram : Mem)
    (hra : ra < 65536) :
    ∀ i ∈ (vram_fill_loop b auto_inc k ra ram).2.2, i < 65536 := by
  induction k generalizing ra ram with
  | zero =>
    intro i hi
    simp [vram_fill_loop] at hi
  | succ k ih =>
    intro i hi
    rw [vram_fill_loop] at hi
    rcases List.mem_cons.mp hi with h | h
    · omega
    · exact ih (word16 (ra + auto_inc)) (memWrite ram ra b)
        (by unfold word16; omega) i h

/-- C3 (amended): when the selected RAM is VRAM, every data-port read,
data-port write and VRAM-fill step stays inside the 65536-byte VRAM,
because `ram_address` is a 16-bit value that wraps modulo the VRAM size;
and for every selected RAM, the plain (non-DMA) data-port write is guarded
by an explicit `ram_address + 1 < size` bounds check, so it never touches
an out-of-range index.  (Data-port reads, VRAM-fill steps and DMA copies on
VSRAM/CRAM are NOT bounds-checked — see the counterexample.) -/
theorem C3_ram_access_bounds (s : VdpState) (w : Nat) :
    (s.ram_address < 65536 → s.ram_kind = RamKind.vram →
      (∀ i ∈ (data_port_read s).2.2, i < ram_size s.ram_kind) ∧
      (∀ i ∈ (process_vdp_data w s).2.2, i < ram_size s.ram_kind)) ∧
    (s.use_dma = false →
      ∀ i ∈ (process_vdp_data w s).2.2, i < ram_size s.ram_kind) := by
  constructor
  · intro hra hk
    rw [hk]
    constructor
    · intro i hi
      simp only [data_port_read, List.mem_cons, List.not_mem_nil, or_false] at hi
      rcases hi with h | h
      · subst h
        simpa [ram_size, kVramSize] using hra
      · subst h
        show word16 _ < ram_size RamKind.vram
        simp only [ram_size, kVramSize, word16]
        omega
    · intro i hi
      unfold process_vdp_data at hi
      by_cases habort : s.use_dma = true ∧ s.dma_type ≠ DmaType.vramFill
      · simp only [if_pos habort, List.not_mem_nil] at hi
      · rw [if_neg habort] at hi
        by_cases hdma : s.use_dma = true
        · rw [if_pos hdma] at hi
          simp only at hi
          show i < ram_size RamKind.vram
          unfold ram_size kVramSize
          by_cases hauto : 1 < s.auto_increment
          · rw [if_pos hauto] at hi
            by_cases heven : s.ram_address % 2 = 0
            · rw [if_pos heven] at hi
              exact vram_fill_loop_indices _ _ _ _ _ (by unfold word16; omega) i hi
            · rw [if_neg heven] at hi
              exact vram_fill_loop_indices _ _ _ _ _ (by unfold word16; omega) i hi
          · rw [if_neg hauto] at hi
            exact vram_fill_loop_indices _ _ _ _ _ hra i hi
        · rw [if_neg hdma] at hi
          simp only at hi
          show i < ram_size RamKind.vram
          by_cases hguard : s.ram_address + 1 < ram_size s.ram_kind
          · rw [if_pos hguard] at hi
            simp only [List.mem_cons, List.not_mem_nil, or_false] at hi
            rw [hk] at hguard
            rcases hi with h | h <;> omega
          · rw [if_neg hguard] at hi
            simp at hi
  · intro huse
    intro i hi
    unfold process_vdp_data at hi
    have h1 : ¬ (s.use_dma = true ∧ s.dma_type ≠ DmaType.vramFill) := by
      rw [huse]
      simp
    have h2 : ¬ (s.use_dma = true) := by rw [huse]; simp
    rw [if_neg h1, if_neg h2] at hi
    simp only at hi
    by_cases hguard : s.ram_address + 1 < ram_size s.ram_kind
    · rw [if_pos hguard] at hi
      simp only [List.mem_cons, List.not_mem_nil, or_false] at hi
      rcases hi with h | h <;> omega
    · rw [if_neg hguard] at hi
      simp at hi

/-- C3 witness: the amended bounds theorem applied at a VRAM-selected state
with `ram_address = 100`: the data-port read's first access index 100 is
within the VRAM. -/
theorem C3_ram_access_bounds_witness : (100 : Nat) < ram_size RamKind.vram :=
  ((C3_ram_access_bounds { ram_address := 100 } 0).1 (by decide) rfl).1 100
    (by decide)

/-! ## Claim C10: unimplemented VDP register writes -/

/-- C10: a 16-bit control-port write whose top three bits are 100 but whose
register index is 0x98..0x9F (outside the implemented set 0x80..0x97: with
the top three bits fixed to 100 the index is at most 0x9F, so
`0x98 ≤ index` says exactly that it lies outside) returns `InvalidWrite`
and leaves the whole VDP state — register mirror, derived fields and the
pending-first-word slot — unchanged. -/
theorem C10_invalid_register_write (w : Nat) (s : VdpState)
    (bus : Nat → Nat → Except EKind (List Nat))
    (hmask : w &&& 0b1110000000000000 = 0b1000000000000000)
    (hreg : 0x98 ≤ w >>> 8) :
    process_vdp_control bus w s = (some EKind.invalidWrite, s) := by
  have h80 : ¬ (w >>> 8 = 0x80) := by omega
  have h81 : ¬ (w >>> 8 = 0x81) := by omega
  have h82 : ¬ (w >>> 8 = 0x82) := by omega
  have h83 : ¬ (w >>> 8 = 0x83) := by omega
  have h84 : ¬ (w >>> 8 = 0x84) := by omega
  have h85 : ¬ (w >>> 8 = 0x85) := by omega
  have h87 : ¬ (w >>> 8 = 0x87) := by omega
  have h8A : ¬ (w >>> 8 = 0x8A) := by omega
  have h8B : ¬ (w >>> 8 = 0x8B) := by omega
  have h8C : ¬ (w >>> 8 = 0x8C) := by omega
  have h8D : ¬ (w >>> 8 = 0x8D) := by omega
  have h8F : ¬ (w >>> 8 = 0x8F) := by omega
  have h90 : ¬ (w >>> 8 = 0x90) := by omega
  have h91 : ¬ (w >>> 8 = 0x91) := by omega
  have h92 : ¬ (w >>> 8 = 0x92) := by omega
  have h93 : ¬ (w >>> 8 = 0x93) := by omega
  have h94 : ¬ (w >>> 8 = 0x94) := by omega
  have h95 : ¬ (w >>> 8 = 0x95) := by omega
  have h96 : ¬ (w >>> 8 = 0x96) := by omega
  have h97 : ¬ (w >>> 8 = 0x97) := by omega
  have hun : ¬ (w >>> 8 = 0x86 ∨ w >>> 8 = 0x88 ∨ w >>> 8 = 0x89 ∨ w >>> 8 = 0x8E) := by
    omega
  unfold process_vdp_control
  rw [if_pos hmask]
  unfold process_vdp_register
  simp only [if_neg h80, if_neg h81, if_neg h82, if_neg h83, if_neg h84,
    if_neg h85, if_neg h87, if_neg h8A, if_neg h8B, if_neg h8C, if_neg h8D,
    if_neg h8F, if_neg h90, if_neg h91, if_neg h92, if_neg h93, if_neg h94,
    if_neg h95, if_neg h96, if_neg h97, if_neg hun]

/-- C10 witness: the control word 0x9905 (register index 0x99) is rejected
with the default state unchanged. -/
theorem C10_invalid_register_write_witness :
    process_vdp_control busNone 0x9905 ({} : VdpState) =
      (some EKind.invalidWrite, ({} : VdpState)) :=
  C10_invalid_register_write 0x9905 ({} : VdpState) busNone (by decide) (by decide)

/-! ## Claim C9: the instruction decoder (`decode.cpp`)

`Instruction::decode` reads the 16-bit word at PC and matches it against
the bit-pattern rules of the source, consuming extension words and
immediates as it goes.  The only piece of the register file the source
touches is `ctx.registers.pc` (always through `auto& pc =
ctx.registers.pc` or direct `.pc` access), and the only device calls are
2-byte reads (`ctx.device.read<Word>`); `decode.cpp` contains no device
write.  The embedding therefore threads the program counter through a
small state monad whose state is exactly `pc`, with the device as a
read-only word fetch, and rebuilds the register file at the end. -/

/-- The device as the decoder sees it: a fallible big-endian word read. -/
def ReadW : Type := Nat → Except EKind Nat

/-- Decoder monad: a computation threading the program counter, with the
source's early-return-on-error behavior (the partially advanced `pc` is
kept on error, as in the C++). -/
def DecM (α : Type) : Type := Nat → Except EKind α × Nat

instance : Monad DecM where
  pure a := fun pc => (Except.ok a, pc)
  bind x f := fun pc =>
    match x pc with
    | (Except.ok a, pc') => f a pc'
    | (Except.error e, pc') => (Except.error e, pc')

/-- Current program counter. -/
def getPc : DecM Nat := fun pc => (Except.ok pc, pc)

/-- Assignment to `ctx.registers.pc`. -/
def setPc (p : Nat) : DecM Unit := fun _ => (Except.ok (), p)

/-- An `std::unexpected{...}` early return. -/
def decThrow {α : Type} (e : EKind) : DecM α := fun pc => (Except.error e, pc)

/-- The `read_word` helper of `Instruction::decode`: fetch the word at PC
and advance PC by 2 only on success. -/
def read_word (dev : ReadW) : DecM Nat := fun pc =>
  match dev pc with
  | Except.ok w => (Except.ok w, long (pc + 2))
  | Except.error e => (Except.error e, pc)

/-- `Instruction::Kind` (the full enumeration of `instruction.h`). -/
inductive IKind where
  | AbcdKind | AddKind | AddaKind | AddiKind | AddqKind | AddxKind
  | AndKind | AndiKind | AndiToCcrKind | AndiToSrKind
  | AslKind | AsrKind
  | BccKind | BchgKind | BclrKind | BsetKind | BsrKind | BtstKind
  | ChkKind | ClrKind
  | CmpKind | CmpaKind | CmpiKind | CmpmKind
  | DbccKind | DivsKind | DivuKind
  | EorKind | EoriKind | EoriToCcrKind | EoriToSrKind
  | ExgKind | ExtKind
  | JmpKind | JsrKind
  | LeaKind | LinkKind | LslKind | LsrKind
  | MoveFromSrKind | MoveFromUspKind | MoveKind | MoveToCcrKind
  | MoveToSrKind | MoveToUspKind | MoveaKind | MovemKind | MovepKind
  | MoveqKind | MulsKind | MuluKind
  | NbcdKind | NegKind | NegxKind | NopKind | NotKind
  | OrKind | OriKind | OriToCcrKind | OriToSrKind
  | PeaKind | ResetKind
  | RolKind | RorKind | RoxlKind | RoxrKind
  | RteKind | RtrKind | RtsKind
  | SbcdKind | SccKind
  | SubKind | SubaKind | SubiKind | SubqKind | SubxKind
  | SwapKind | TasKind | TrapKind | TrapvKind | TstKind | UnlinkKind
deriving DecidableEq

/-- The decoded `Instruction` value (kind, size, condition, operand
targets with their presence flags, and the scratch data word). -/
structure Instruction where
  kind : IKind := IKind.AbcdKind
  size : Nat := 0
  cond : Nat := 0
  src : Target := {}
  dst : Target := {}
  has_src : Bool := false
  has_dst : Bool := false
  data : Nat := 0
deriving DecidableEq

/-- Builder `Instruction::kind`: also resets the operand-presence flags
(`has_src_ = has_dst_ = false` in `instruction.cpp`). -/
def Instruction.withKind (i : Instruction) (k : IKind) : Instruction :=
  { i with kind := k, has_src := false, has_dst := false }

/-- Builder `Instruction::size`. -/
def Instruction.withSize (i : Instruction) (s : Nat) : Instruction :=
  { i with size := s }

/-- Builder `Instruction::condition`. -/
def Instruction.withCondition (i : Instruction) (c : Nat) : Instruction :=
  { i with cond := c }

/-- Builder `Instruction::src`. -/
def Instruction.withSrc (i : Instruction) (t : Target) : Instruction :=
  { i with src := t, has_src := true }

/-- Builder `Instruction::dst`. -/
def Instruction.withDst (i : Instruction) (t : Target) : Instruction :=
  { i with dst := t, has_dst := true }

/-- Builder `Instruction::data`. -/
def Instruction.withData (i : Instruction) (d : Nat) : Instruction :=
  { i with data := d }

/-- The decoder's `bits_range` helper (on the opcode word). -/
def bits_range (word begin_bit len : Nat) : Nat :=
  word >>> begin_bit &&& (1 <<< len - 1)

/-- The decoder's `bit_at` helper. -/
def bit_at (word bit : Nat) : Nat := bits_range word bit 1

/-- `get_size0`: bits 6..7 decode byte/word/long; the value 3 hits
`std::unreachable()` in the source (undefined behavior), the embedding
returns 0 there. -/
def get_size0 (word : Nat) : Nat :=
  match bits_range word 6 2 with
  | 0 => 1
  | 1 => 2
  | 2 => 4
  | _ => 0

/-- `parse_target_with_size`: decode a 3-bit addressing mode and 3-bit
register index from the opcode word into a `Target`, consuming 0, 1 or 2
extension words (or an immediate) from the instruction stream. -/
def parse_target_with_size (dev : ReadW) (word : Nat) (size : Nat)
    (modeBegin indexBegin : Nat) : DecM Target := do
  let mode := bits_range word modeBegin 3
  let xn := bits_range word indexBegin 3
  if mode = 0 then
    pure ((({} : Target).withKind TKind.dataRegister).withIndex xn)
  else if mode = 1 then
    pure ((({} : Target).withKind TKind.addressRegister).withIndex xn)
  else if mode = 2 then
    pure ((({} : Target).withKind TKind.address).withIndex xn)
  else if mode = 3 then
    pure (((({} : Target).withKind TKind.addressIncrement).withIndex xn).withSize size)
  else if mode = 4 then
    pure (((({} : Target).withKind TKind.addressDecrement).withIndex xn).withSize size)
  else if mode = 5 then do
    let w ← read_word dev
    pure (((({} : Target).withKind TKind.addressDisplacement).withIndex xn).withExtWord0 w)
  else if mode = 6 then do
    let w ← read_word dev
    pure (((({} : Target).withKind TKind.addressIndex).withIndex xn).withExtWord0 w)
  else
    if xn = 0 then do
      let w ← read_word dev
      pure ((({} : Target).withKind TKind.absoluteShort).withExtWord0 w)
    else if xn = 1 then do
      let w0 ← read_word dev
      let w1 ← read_word dev
      pure (((({} : Target).withKind TKind.absoluteLong).withExtWord0 w0).withExtWord1 w1)
    else if xn = 2 then do
      let w ← read_word dev
      pure ((({} : Target).withKind TKind.programCounterDisplacement).withExtWord0 w)
    else if xn = 3 then do
      let w ← read_word dev
      pure ((({} : Target).withKind TKind.programCounterIndex).withExtWord0 w)
    else if xn = 4 then do
      let pc ← getPc
      let t := (({} : Target).withKind TKind.immediate).withAddress
        (if size = 1 then long (pc + 1) else pc)
      setPc (long (pc + (if size = 4 then 4 else 2)))
      pure t
    else
      decThrow EKind.unknownAddressingMode

/-- `try_parse_status_register_instruction`: [ORI|ANDI|EORI] to [CCR|SR]
(pattern `0000 ...0 0.11 1100`, secondary field in bits 9..11). -/
def try_parse_status_register_instruction (word : Nat) :
    DecM (Option Instruction) := do
  let build : IKind → IKind → DecM (Option Instruction) := fun ccr_kind sr_kind => do
    let is_word := bit_at word 6 = 1
    let pc ← getPc
    let src := (({} : Target).withKind TKind.immediate).withAddress
      (if is_word then pc else long (pc + 1))
    setPc (long (pc + 2))
    pure (some ((({} : Instruction).withKind
      (if is_word then sr_kind else ccr_kind)).withSrc src))
  if word &&& 0xF1BF = 0x003C ∧ bits_range word 9 3 = 0 then
    build IKind.OriToCcrKind IKind.OriToSrKind
  else if word &&& 0xF1BF = 0x003C ∧ bits_range word 9 3 = 1 then
    build IKind.AndiToCcrKind IKind.AndiToSrKind
  else if word &&& 0xF1BF = 0x003C ∧ bits_range word 9 3 = 5 then
    build IKind.EoriToCcrKind IKind.EoriToSrKind
  else
    pure none

/-- `try_parse_bit_instruction`: BTST/BCHG/BCLR/BSET, each with a
data-register form (bits 9..11 name the bit-number register, mode ≠ 1) and
an immediate form (`0000 1000 ..`). -/
def try_parse_bit_instruction (dev : ReadW) (word : Nat) :
    DecM (Option Instruction) := do
  let reg_form : IKind → DecM (Option Instruction) := fun k => do
    let src := (({} : Target).withKind TKind.dataRegister).withIndex (bits_range word 9 3)
    let dst ← parse_target_with_size dev word 1 3 0
    pure (some (((((({} : Instruction).withKind k).withSrc src).withDst dst).withSize 1)))
  let imm_form : IKind → DecM (Option Instruction) := fun k => do
    let pc ← getPc
    let src := (({} : Target).withKind TKind.immediate).withAddress (long (pc + 1))
    setPc (long (pc + 2))
    let dst ← parse_target_with_size dev word 1 3 0
    pure (some (((((({} : Instruction).withKind k).withSrc src).withDst dst).withSize 1)))
  if word &&& 0xF1C0 = 0x0100 ∧ bits_range word 3 3 ≠ 1 then
    reg_form IKind.BtstKind
  else if word &&& 0xFFC0 = 0x0800 then imm_form IKind.BtstKind
  else if word &&& 0xF1C0 = 0x0140 ∧ bits_range word 3 3 ≠ 1 then
    reg_form IKind.BchgKind
  else if word &&& 0xFFC0 = 0x0840 then imm_form IKind.BchgKind
  else if word &&& 0xF1C0 = 0x0180 ∧ bits_range word 3 3 ≠ 1 then
    reg_form IKind.BclrKind
  else if word &&& 0xFFC0 = 0x0880 then imm_form IKind.BclrKind
  else if word &&& 0xF1C0 = 0x01C0 ∧ bits_range word 3 3 ≠ 1 then
    reg_form IKind.BsetKind
  else if word &&& 0xFFC0 = 0x08C0 then imm_form IKind.BsetKind
  else pure none

/-- `try_parse_unary_instruction`: NEGX/CLR/NEG/NOT (size field ≠ 3). -/
def try_parse_unary_instruction (dev : ReadW) (word : Nat) :
    DecM (Option Instruction) := do
  let build : IKind → DecM (Option Instruction) := fun k => do
    let dst ← parse_target_with_size dev word (get_size0 word) 3 0
    pure (some ((((({} : Instruction).withKind k).withDst dst).withSize (get_size0 word))))
  if word &&& 0xFF00 = 0x4000 ∧ bits_range word 6 2 ≠ 3 then build IKind.NegxKind
  else if word &&& 0xFF00 = 0x4200 ∧ bits_range word 6 2 ≠ 3 then build IKind.ClrKind
  else if word &&& 0xFF00 = 0x4400 ∧ bits_range word 6 2 ≠ 3 then build IKind.NegKind
  else if word &&& 0xFF00 = 0x4600 ∧ bits_range word 6 2 ≠ 3 then build IKind.NotKind
  else pure none

/-- `try_parse_shift_instruction`: ASL/ASR, LSL/LSR, ROXL/ROXR, ROL/ROR;
each pair has a memory form (`1110 0... 11.. ....`, shift by 1, word size)
and a data-register form (shift count immediate in bits 9..11 or in a data
register when bit 5 is set). -/
def try_parse_shift_instruction (dev : ReadW) (word : Nat) :
    DecM (Option Instruction) := do
  let mem_form : IKind → IKind → DecM (Option Instruction) :=
    fun left_kind right_kind => do
      let kind := if bit_at word 8 = 1 then left_kind else right_kind
      let dst ← parse_target_with_size dev word 2 3 0
      pure (some ((((({} : Instruction).withKind kind).withDst dst).withSize 2).withData 1))
  let reg_form : IKind → IKind → DecM (Option Instruction) :=
    fun left_kind right_kind => do
      let kind := if bit_at word 8 = 1 then left_kind else right_kind
      let rotation := bits_range word 9 3
      let dst := (({} : Target).withKind TKind.dataRegister).withIndex (bits_range word 0 3)
      let base := ((({} : Instruction).withKind kind).withDst dst).withSize (get_size0 word)
      if bit_at word 5 = 1 then
        let src := (({} : Target).withKind TKind.dataRegister).withIndex rotation
        pure (some (base.withSrc src))
      else
        pure (some (base.withData rotation))
  if word &&& 0xF8C0 = 0xE0C0 ∧ bits_range word 9 2 = 0 then
    mem_form IKind.AslKind IKind.AsrKind
  else if word &&& 0xF000 = 0xE000 ∧ bits_range word 3 2 = 0 ∧ bits_range word 6 2 ≠ 3 then
    reg_form IKind.AslKind IKind.AsrKind
  else if word &&& 0xF8C0 = 0xE0C0 ∧ bits_range word 9 2 = 1 then
    mem_form IKind.LslKind IKind.LsrKind
  else if word &&& 0xF000 = 0xE000 ∧ bits_range word 3 2 = 1 ∧ bits_range word 6 2 ≠ 3 then
    reg_form IKind.LslKind IKind.LsrKind
  else if word &&& 0xF8C0 = 0xE0C0 ∧ bits_range word 9 2 = 2 then
    mem_form IKind.RoxlKind IKind.RoxrKind
  else if word &&& 0xF000 = 0xE000 ∧ bits_range word 3 2 = 2 ∧ bits_range word 6 2 ≠ 3 then
    reg_form IKind.RoxlKind IKind.RoxrKind
  else if word &&& 0xF8C0 = 0xE0C0 ∧ bits_range word 9 2 = 3 then
    mem_form IKind.RolKind IKind.RorKind
  else if word &&& 0xF000 = 0xE000 ∧ bits_range word 3 2 = 3 ∧ bits_range word 6 2 ≠ 3 then
    reg_form IKind.RolKind IKind.RorKind
  else pure none

/-- `try_parse_binary_on_immediate_instruction`: ORI/ANDI/SUBI/ADDI/EORI/
CMPI (pattern `0000 ...0`, secondary field in bits 9..11); the immediate is
consumed from the PC stream. -/
def try_parse_binary_on_immediate_instruction (dev : ReadW) (word : Nat) :
    DecM (Option Instruction) := do
  let build : IKind → DecM (Option Instruction) := fun k => do
    let pc ← getPc
    let src := (({} : Target).withKind TKind.immediate).withAddress
      (if get_size0 word = 1 then long (pc + 1) else pc)
    setPc (long (pc + (if get_size0 word = 4 then 4 else 2)))
    let dst ← parse_target_with_size dev word (get_size0 word) 3 0
    pure (some ((((({} : Instruction).withKind k).withSrc src).withDst dst).withSize
      (get_size0 word)))
  if word &&& 0xF100 = 0x0000 ∧ bits_range word 9 3 = 0 then build IKind.OriKind
  else if word &&& 0xF100 = 0x0000 ∧ bits_range word 9 3 = 1 then build IKind.AndiKind
  else if word &&& 0xF100 = 0x0000 ∧ bits_range word 9 3 = 2 then build IKind.SubiKind
  else if word &&& 0xF100 = 0x0000 ∧ bits_range word 9 3 = 3 then build IKind.AddiKind
  else if word &&& 0xF100 = 0x0000 ∧ bits_range word 9 3 = 5 then build IKind.EoriKind
  else if word &&& 0xF100 = 0x0000 ∧ bits_range word 9 3 = 6 then build IKind.CmpiKind
  else pure none

/-- `try_parse_binary_instruction`: OR/SUB/EOR/AND/ADD (pattern
`1... ....`, secondary field in bits 12..14); when bit 8 is clear the
operands swap and an EOR pattern is remapped to CMP. -/
def try_parse_binary_instruction (dev : ReadW) (word : Nat) :
    DecM (Option Instruction) := do
  let build : IKind → DecM (Option Instruction) := fun k => do
    let dn := (({} : Target).withKind TKind.dataRegister).withIndex (bits_range word 9 3)
    let parsed ← parse_target_with_size dev word (get_size0 word) 3 0
    if bit_at word 8 = 0 then
      let kind := if k = IKind.EorKind then IKind.CmpKind else k
      pure (some ((((({} : Instruction).withKind kind).withSrc parsed).withDst dn).withSize
        (get_size0 word)))
    else
      pure (some ((((({} : Instruction).withKind k).withSrc dn).withDst parsed).withSize
        (get_size0 word)))
  if word &&& 0x8000 = 0x8000 ∧ bits_range word 12 3 = 0 then build IKind.OrKind
  else if word &&& 0x8000 = 0x8000 ∧ bits_range word 12 3 = 1 then build IKind.SubKind
  else if word &&& 0x8000 = 0x8000 ∧ bits_range word 12 3 = 3 then build IKind.EorKind
  else if word &&& 0x8000 = 0x8000 ∧ bits_range word 12 3 = 4 then build IKind.AndKind
  else if word &&& 0x8000 = 0x8000 ∧ bits_range word 12 3 = 5 then build IKind.AddKind
  else pure none

/-- `try_parse_binary_on_address_instruction`: SUBA/CMPA/ADDA (pattern
`1..1 .... 11..`, secondary field in bits 13..14, size by bit 8). -/
def try_parse_binary_on_address_instruction (dev : ReadW) (word : Nat) :
    DecM (Option Instruction) := do
  let build : IKind → DecM (Option Instruction) := fun k => do
    let size := if bit_at word 8 = 1 then 4 else 2
    let an := (({} : Target).withKind TKind.addressRegister).withIndex (bits_range word 9 3)
    let parsed ← parse_target_with_size dev word size 3 0
    pure (some ((((({} : Instruction).withKind k).withSrc parsed).withDst an).withSize size))
  if word &&& 0x90C0 = 0x90C0 ∧ bits_range word 13 2 = 0 then build IKind.SubaKind
  else if word &&& 0x90C0 = 0x90C0 ∧ bits_range word 13 2 = 1 then build IKind.CmpaKind
  else if word &&& 0x90C0 = 0x90C0 ∧ bits_range word 13 2 = 2 then build IKind.AddaKind
  else pure none

/-- `try_parse_move_instruction`: MOVE/MOVEA, MOVEP, MOVEM, MOVEQ,
MOVE to CCR/SR, MOVE from SR, MOVE to/from USP. -/
def try_parse_move_instruction (dev : ReadW) (word : Nat) :
    DecM (Option Instruction) := do
  let move_size : Option Nat :=
    match bits_range word 12 2 with
    | 1 => some 1
    | 3 => some 2
    | 2 => some 4
    | _ => none
  if h : word &&& 0xC000 = 0x0000 ∧ move_size.isSome then
    let size := move_size.get h.2
    let src ← parse_target_with_size dev word size 3 0
    let pc0 ← getPc
    let dst ← parse_target_with_size dev word size 6 9
    let kind := if bits_range word 6 3 = 1 then IKind.MoveaKind else IKind.MoveKind
    pure (some (((((({} : Instruction).withKind kind).withSrc src).withDst dst).withSize
      size).withData pc0))
  else if word &&& 0xF138 = 0x0108 then
    let size := if bit_at word 6 = 1 then 4 else 2
    let dreg := (({} : Target).withKind TKind.dataRegister).withIndex (bits_range word 9 3)
    let w ← read_word dev
    let mem := ((({} : Target).withKind TKind.addressDisplacement).withIndex
      (bits_range word 0 3)).withExtWord0 w
    if bit_at word 7 = 0 then
      pure (some ((((({} : Instruction).withKind IKind.MovepKind).withSrc mem).withDst
        dreg).withSize size))
    else
      pure (some ((((({} : Instruction).withKind IKind.MovepKind).withSrc dreg).withDst
        mem).withSize size))
  else if word &&& 0xFB80 = 0x4880 then
    let w ← read_word dev
    let size := if bit_at word 6 = 1 then 4 else 2
    let t ← parse_target_with_size dev word size 3 0
    let base := ((({} : Instruction).withKind IKind.MovemKind).withData w).withSize size
    if bit_at word 10 = 1 then
      pure (some (base.withSrc t))
    else
      pure (some (base.withDst t))
  else if word &&& 0xF100 = 0x7000 then
    let dst := (({} : Target).withKind TKind.dataRegister).withIndex (bits_range word 9 3)
    pure (some (((({} : Instruction).withKind IKind.MoveqKind).withData
      (bits_range word 0 8)).withDst dst))
  else if word &&& 0xFDC0 = 0x44C0 then
    let t ← parse_target_with_size dev word 2 3 0
    let kind := if bit_at word 9 = 1 then IKind.MoveToSrKind else IKind.MoveToCcrKind
    pure (some ((({} : Instruction).withKind kind).withSrc t))
  else if word &&& 0xFFC0 = 0x40C0 then
    let t ← parse_target_with_size dev word 2 3 0
    pure (some ((({} : Instruction).withKind IKind.MoveFromSrKind).withDst t))
  else if word &&& 0xFFF8 = 0x4E60 then
    let src := (({} : Target).withKind TKind.addressRegister).withIndex (bits_range word 0 3)
    pure (some ((({} : Instruction).withKind IKind.MoveToUspKind).withSrc src))
  else if word &&& 0xFFF8 = 0x4E68 then
    let dst := (({} : Target).withKind TKind.addressRegister).withIndex (bits_range word 0 3)
    pure (some ((({} : Instruction).withKind IKind.MoveFromUspKind).withDst dst))
  else
    pure none

/-- `Instruction::decode`, the main pattern chain: read the opcode word at
PC (advancing PC), match it against the bit patterns in source order, and
fall back to the family sub-parsers; an unmatched word is
`UnknownOpcode`. -/
def decode_core (dev : ReadW) : DecM Instruction := do
  let word ← read_word dev
  if word &&& 0xFFFF = 0x4E70 then
    pure (({} : Instruction).withKind IKind.ResetKind)
  else if word &&& 0xFFFF = 0x4E71 then
    pure (({} : Instruction).withKind IKind.NopKind)
  else if word &&& 0xF0F8 = 0x50C8 then
    let cond := bits_range word 8 4
    let dst := ((({} : Target).withKind TKind.dataRegister).withIndex
      (bits_range word 0 3)).withSize 2
    let w ← read_word dev
    pure ((((((({} : Instruction).withKind IKind.DbccKind).withCondition cond).withDst
      dst).withData w).withSize 2))
  else if word &&& 0xF0C0 = 0x50C0 then
    let cond := bits_range word 8 4
    let dst ← parse_target_with_size dev word 1 3 0
    pure (((({} : Instruction).withKind IKind.SccKind).withCondition cond).withDst dst)
  else if word &&& 0xF000 = 0x5000 then
    let dst ← parse_target_with_size dev word (get_size0 word) 3 0
    let kind := if bit_at word 8 = 1 then IKind.SubqKind else IKind.AddqKind
    pure ((((({} : Instruction).withKind kind).withData (bits_range word 9 3)).withDst
      dst).withSize (get_size0 word))
  else if word &&& 0xB1F0 = 0x8100 then
    let tkind := if bit_at word 3 = 1 then TKind.addressDecrement else TKind.dataRegister
    let src := ((({} : Target).withKind tkind).withIndex (bits_range word 0 3)).withSize 1
    let dst := ((({} : Target).withKind tkind).withIndex (bits_range word 9 3)).withSize 1
    let kind := if bit_at word 14 = 1 then IKind.AbcdKind else IKind.SbcdKind
    pure (((({} : Instruction).withKind kind).withSrc src).withDst dst)
  else if word &&& 0xB130 = 0x9100 ∧ bits_range word 6 2 ≠ 3 then
    let size := get_size0 word
    let tkind := if bit_at word 3 = 1 then TKind.addressDecrement else TKind.dataRegister
    let src := ((({} : Target).withKind tkind).withIndex (bits_range word 0 3)).withSize size
    let dst := ((({} : Target).withKind tkind).withIndex (bits_range word 9 3)).withSize size
    let kind := if bit_at word 14 = 1 then IKind.AddxKind else IKind.SubxKind
    pure ((((({} : Instruction).withKind kind).withSrc src).withDst dst).withSize size)
  else if word &&& 0xF000 = 0x6000 then
    let cond := bits_range word 8 4
    if bits_range word 0 8 = 0 then
      let w ← read_word dev
      if cond = 1 then
        pure (((({} : Instruction).withKind IKind.BsrKind).withData w).withSize 2)
      else
        pure ((((({} : Instruction).withKind IKind.BccKind).withCondition cond).withData
          w).withSize 2)
    else
      if cond = 1 then
        pure (((({} : Instruction).withKind IKind.BsrKind).withData
          (bits_range word 0 8)).withSize 1)
      else
        pure ((((({} : Instruction).withKind IKind.BccKind).withCondition cond).withData
          (bits_range word 0 8)).withSize 1)
  else if word &&& 0xFF80 = 0x4E80 then
    let dst ← parse_target_with_size dev word 4 3 0
    let kind := if bit_at word 6 = 1 then IKind.JmpKind else IKind.JsrKind
    pure ((({} : Instruction).withKind kind).withDst dst)
  else if word &&& 0xF1C0 = 0x41C0 then
    let parsed ← parse_target_with_size dev word 4 3 0
    let an := (({} : Target).withKind TKind.addressRegister).withIndex (bits_range word 9 3)
    pure (((({} : Instruction).withKind IKind.LeaKind).withSrc parsed).withDst an)
  else if word &&& 0xF138 = 0xB108 ∧ bits_range word 6 2 ≠ 3 then
    let size := get_size0 word
    let src := ((({} : Target).withKind TKind.addressIncrement).withIndex
      (bits_range word 0 3)).withSize size
    let dst := ((({} : Target).withKind TKind.addressIncrement).withIndex
      (bits_range word 9 3)).withSize size
    pure ((((({} : Instruction).withKind IKind.CmpmKind).withSrc src).withDst
      dst).withSize size)
  else if word &&& 0xFFF8 = 0x4840 then
    let dst := (({} : Target).withKind TKind.dataRegister).withIndex (bits_range word 0 3)
    pure ((({} : Instruction).withKind IKind.SwapKind).withDst dst)
  else if word &&& 0xFFC0 = 0x4840 then
    let t ← parse_target_with_size dev word 4 3 0
    pure ((({} : Instruction).withKind IKind.PeaKind).withSrc t)
  else if word &&& 0xFFC0 = 0x4AC0 then
    let t ← parse_target_with_size dev word 1 3 0
    pure ((({} : Instruction).withKind IKind.TasKind).withDst t)
  else if word &&& 0xF130 = 0xC100 ∧ bits_range word 6 2 ≠ 3 then
    let dst0 := ({} : Target).withIndex (bits_range word 0 3)
    let src0 := ({} : Target).withIndex (bits_range word 9 3)
    let pair :=
      if bits_range word 3 5 = 0b01000 then
        (src0.withKind TKind.dataRegister, dst0.withKind TKind.dataRegister)
      else if bits_range word 3 5 = 0b01001 then
        (src0.withKind TKind.addressRegister, dst0.withKind TKind.addressRegister)
      else
        (src0.withKind TKind.dataRegister, dst0.withKind TKind.addressRegister)
    pure (((({} : Instruction).withKind IKind.ExgKind).withSrc pair.1).withDst pair.2)
  else if word &&& 0xFFB8 = 0x4880 then
    let dst := (({} : Target).withKind TKind.dataRegister).withIndex (bits_range word 0 3)
    pure (((({} : Instruction).withKind IKind.ExtKind).withDst dst).withSize
      (if bit_at word 6 = 1 then 4 else 2))
  else if word &&& 0xFFF8 = 0x4E50 then
    let dst := (({} : Target).withKind TKind.addressRegister).withIndex (bits_range word 0 3)
    let w ← read_word dev
    pure (((({} : Instruction).withKind IKind.LinkKind).withDst dst).withData w)
  else if word &&& 0xFFF8 = 0x4E58 then
    let dst := (({} : Target).withKind TKind.addressRegister).withIndex (bits_range word 0 3)
    pure ((({} : Instruction).withKind IKind.UnlinkKind).withDst dst)
  else if word &&& 0xFFF0 = 0x4E40 then
    pure ((({} : Instruction).withKind IKind.TrapKind).withData (32 + bits_range word 0 4))
  else if word &&& 0xFFFF = 0x4E76 then
    pure ((({} : Instruction).withKind IKind.TrapvKind).withData 7)
  else if word &&& 0xFFFF = 0x4E73 then
    pure (({} : Instruction).withKind IKind.RteKind)
  else if word &&& 0xFFFF = 0x4E75 then
    pure (({} : Instruction).withKind IKind.RtsKind)
  else if word &&& 0xFFFF = 0x4E77 then
    pure (({} : Instruction).withKind IKind.RtrKind)
  else if word &&& 0xFF00 = 0x4A00 then
    let t ← parse_target_with_size dev word (get_size0 word) 3 0
    pure (((({} : Instruction).withKind IKind.TstKind).withSrc t).withSize (get_size0 word))
  else if word &&& 0xF1C0 = 0x4180 then
    let dreg := (({} : Target).withKind TKind.dataRegister).withIndex (bits_range word 9 3)
    let t ← parse_target_with_size dev word 2 3 0
    pure ((((({} : Instruction).withKind IKind.ChkKind).withSrc t).withDst dreg).withSize 2)
  else if word &&& 0xFFC0 = 0x4800 then
    let t ← parse_target_with_size dev word 1 3 0
    pure (((({} : Instruction).withKind IKind.NbcdKind).withDst t).withSize 1)
  else if word &&& 0xF0C0 = 0xC0C0 then
    let dreg := (({} : Target).withKind TKind.dataRegister).withIndex (bits_range word 9 3)
    let t ← parse_target_with_size dev word 2 3 0
    let kind := if bit_at word 8 = 1 then IKind.MulsKind else IKind.MuluKind
    pure (((({} : Instruction).withKind kind).withSrc t).withDst dreg)
  else if word &&& 0xF0C0 = 0x80C0 then
    let dreg := (({} : Target).withKind TKind.dataRegister).withIndex (bits_range word 9 3)
    let t ← parse_target_with_size dev word 2 3 0
    let kind := if bit_at word 8 = 1 then IKind.DivsKind else IKind.DivuKind
    pure (((({} : Instruction).withKind kind).withSrc t).withDst dreg)
  else
    match ← try_parse_status_register_instruction word with
    | some i => pure i
    | none =>
    match ← try_parse_bit_instruction dev word with
    | some i => pure i
    | none =>
    match ← try_parse_unary_instruction dev word with
    | some i => pure i
    | none =>
    match ← try_parse_shift_instruction dev word with
    | some i => pure i
    | none =>
    match ← try_parse_binary_on_address_instruction dev word with
    | some i => pure i
    | none =>
    match ← try_parse_binary_on_immediate_instruction dev word with
    | some i => pure i
    | none =>
    match ← try_parse_binary_instruction dev word with
    | some i => pure i
    | none =>
    match ← try_parse_move_instruction dev word with
    | some i => pure i
    | none => decThrow EKind.unknownOpcode

/-- `Instruction::decode` against a full register file: the decoder reads
the register file only through `ctx.registers.pc`, so the result register
file is the input one with only `pc` replaced. -/
def Instruction.decode (dev : ReadW) (r : Registers) :
    Except EKind Instruction × Registers :=
  let res := decode_core dev r.pc
  (res.1, { r with pc := res.2 })

/-- C9: for every instruction word stream (any device read behavior,
including errors) and every starting register file, decoding changes only
the program counter: all data registers, address registers, USP, SSP and
SR are identical before and after, whether decode succeeds or fails.  The
decoder's device channel is read-only (`decode.cpp` issues no write), so
no memory write occurs during decode. -/
theorem C9_decode_changes_only_pc (dev : ReadW) (r : Registers) :
    ((Instruction.decode dev r).2.d = r.d) ∧
    ((Instruction.decode dev r).2.a = r.a) ∧
    ((Instruction.decode dev r).2.usp = r.usp) ∧
    ((Instruction.decode dev r).2.ssp = r.ssp) ∧
    ((Instruction.decode dev r).2.sr = r.sr) ∧
    ((Instruction.decode dev r).2 = { r with pc := (Instruction.decode dev r).2.pc }) := by
  unfold Instruction.decode
  exact ⟨rfl, rfl, rfl, rfl, rfl, rfl⟩

/-- Instruction stream for the spec's scenario S1: `70 42` (MOVEQ #0x42,
D0) at address 0x1000. -/
def s1Dev : ReadW := fun a =>
  if a = 0x1000 then Except.ok 0x7042 else Except.error EKind.unmappedRead

/-- Sanity anchor (spec scenario S1): decoding at 0x1000 yields
MOVEQ #0x42, D0 and advances PC to 0x1002. -/
theorem decode_moveq_s1 :
    (decode_core s1Dev 0x1000 =
      (Except.ok ((((({} : Instruction).withKind IKind.MoveqKind).withData 0x42).withDst
        ((({} : Target).withKind TKind.dataRegister).withIndex 0))), 0x1002)) := by
  rfl

/-- Instruction stream for the spec's scenario S3: `41 F9 00 00 30 00`
(LEA $00003000, A0) at address 0x2000. -/
def s3Dev : ReadW := fun a =>
  if a = 0x2000 then Except.ok 0x41F9
  else if a = 0x2002 then Except.ok 0x0000
  else if a = 0x2004 then Except.ok 0x3000
  else Except.error EKind.unmappedRead

/-- Sanity anchor (spec scenario S3): decoding at 0x2000 yields
`LEA $00003000, A0` (absolute-long source, A0 destination) and advances PC
to 0x2006. -/
theorem decode_lea_s3 :
    (decode_core s3Dev 0x2000 =
      (Except.ok (((({} : Instruction).withKind IKind.LeaKind).withSrc
        (((({} : Target).withKind TKind.absoluteLong).withExtWord0 0x0000).withExtWord1
          0x3000)).withDst
        ((({} : Target).withKind TKind.addressRegister).withIndex 0)), 0x2006)) := by
  rfl

end Sega
